import Mathlib

/-!
# Verification of the crypto-morning-brief signal engine and provider layer

Shallow embedding of `app/services/signal_engine.py` (class `SignalEngine`),
`app/providers/factory.py`, `app/providers/mock_provider.py` and
`app/providers/public_provider.py`.

Modelling conventions:
* Python floats are modelled as exact rationals (`ℚ`); the decimal literals
  appearing in the source (thresholds such as `0.01`, `0.3`) are taken at
  their exact decimal value.
* Python dictionaries used as records with optional numeric keys are modelled
  as structures of `Option ℚ` fields; `d.get(key, default)` becomes
  `field.getD default`.
* Python dictionaries used as string-keyed mappings (snapshots, the engine's
  `_historical_data`) are modelled as association lists (`List (String × _)`)
  or as total functions `String → List Entry` (absent key ≡ empty list, which
  is observationally equivalent in the source: every reader either creates
  the missing key as `[]` or treats absence like emptiness).
* Division, the one partial arithmetic operation the source performs, is
  modelled by `cdiv`, which returns `Except.error` on a zero denominator like
  Python's `ZeroDivisionError`; all engine functions that divide are threaded
  through the `Except String` monad so that "the engine cannot raise" is a
  provable statement rather than an artifact of Lean's total division.
* `datetime.utcnow()` is an external input: `analyze` receives the timestamp
  string as a parameter and only embeds it in its result; the timestamps the
  source stores inside history entries are never read by any rule and are
  dropped from `Entry`.
* Signal dictionaries carry the fields the rules compute structurally
  (`id`, `level`, `title`, `metric`).  The `reason` / `threshold` / `value`
  fields are human-readable strings produced by float formatting
  (`f"{x:.3f}"` etc.) and are not modelled.
-/

/-- One record of a spot snapshot (`spot_snapshot[symbol]`).  Optional keys. -/
structure SpotData where
  price : Option ℚ := none
  change_24h : Option ℚ := none
  volume_24h : Option ℚ := none
  market_cap : Option ℚ := none
  high_24h : Option ℚ := none
  low_24h : Option ℚ := none
deriving DecidableEq, Repr

/-- One record of a derivatives snapshot (`derivatives_snapshot[symbol]`). -/
structure DerivData where
  funding_rate : Option ℚ := none
  funding_rate_24h : Option ℚ := none
  open_interest : Option ℚ := none
  open_interest_usd : Option ℚ := none
  long_short_ratio : Option ℚ := none
  long_liquidation_24h : Option ℚ := none
  short_liquidation_24h : Option ℚ := none
deriving DecidableEq, Repr

/-- One entry of `SignalEngine._historical_data[symbol]`: a dict that may hold
`open_interest_usd` (written by rule 2), `volume_ratio` (written by rule 4)
and `btc_dominance` (written by rule 11).  The `timestamp` key the source also
stores is never read by any rule and is not modelled. -/
structure Entry where
  open_interest_usd : Option ℚ := none
  volume_ratio : Option ℚ := none
  btc_dominance : Option ℚ := none
deriving DecidableEq, Repr

/-- A produced signal.  See the module comment for the dropped fields. -/
structure Signal where
  id : String
  level : String
  title : String
  metric : String
deriving DecidableEq, Repr

/-- The regime dictionary returned by `_determine_regime`. -/
structure Regime where
  label : String
  rationale : List String
deriving DecidableEq, Repr

/-- The dictionary returned by `analyze`. -/
structure AnalyzeResult where
  signals : List Signal
  regime : Regime
  timestamp : String
deriving DecidableEq, Repr

/-- `SignalEngine._historical_data` as a total map; a missing key reads as `[]`. -/
def HistMap : Type := String → List Entry

/-- The freshly-constructed engine's history (`__init__`: empty dict). -/
def emptyHist : HistMap := fun _ => []

/-- Point update of the history map (`self._historical_data[symbol] = v`). -/
def setH (m : HistMap) (k : String) (v : List Entry) : HistMap :=
  fun s => if s = k then v else m s

/-- Checked division: Python `/`, raising `ZeroDivisionError` on a zero
denominator. -/
def cdiv (a b : ℚ) : Except String ℚ :=
  if b = 0 then .error "ZeroDivisionError" else .ok (a / b)

/-- First-match association-list lookup (Python dict read). -/
def alookup {α : Type} : List (String × α) → String → Option α
  | [], _ => none
  | (k, v) :: rest, key => if k = key then some v else alookup rest key

/-- In-place update of the last element of a list
(`hist[-1][key] = value` on a non-empty list; identity on `[]`). -/
def updLast (l : List Entry) (f : Entry → Entry) : List Entry :=
  match l.getLast? with
  | none => l
  | some e => l.dropLast ++ [f e]

/-! ## `SignalEngine.THRESHOLDS` -/

def funding_rate_overheated : ℚ := 0.01
def funding_rate_extreme : ℚ := 0.05
def oi_increase_critical : ℚ := 0.3
def oi_increase_warning : ℚ := 0.15
def volatility_extreme : ℚ := 0.15
def volatility_high : ℚ := 0.10
def volume_surge_zscore : ℚ := 2.0
def price_oi_surge_price : ℚ := 0.05
def price_oi_surge_oi : ℚ := 0.20
def price_drop_volume_price : ℚ := -0.05
def price_drop_volume_volume : ℚ := 0.5
def long_short_ratio_extreme : ℚ := 1.5
def long_short_ratio_warning : ℚ := 1.3
def liquidation_risk_ratio : ℚ := 0.1

/-! ## The signal records each rule builds

The record literal of each rule's `return {...}` is factored into one
constructor per rule so the monadic checks and their total shadows below
share it. -/

def fundingOverheatedSig (symbol level direction : String) : Signal :=
  { id := symbol ++ "_funding_overheated"
    level := level
    title := symbol ++ " Funding Rate Overheated (" ++ direction ++ " bias)"
    metric := "funding_rate_24h" }

def oiSurgeSig (symbol level : String) : Signal :=
  { id := symbol ++ "_oi_surge"
    level := level
    title := symbol ++ " Open Interest Surge"
    metric := "open_interest_change_24h" }

def volatilitySpikeSig (symbol level direction : String) : Signal :=
  { id := symbol ++ "_volatility_spike"
    level := level
    title := symbol ++ " Volatility Spike (" ++ direction ++ ")"
    metric := "change_24h_abs" }

def volumeSurgeSig (symbol : String) : Signal :=
  { id := symbol ++ "_volume_surge"
    level := "warn"
    title := symbol ++ " Volume Surge"
    metric := "volume_zscore" }

def longShortSig (symbol level direction : String) : Signal :=
  { id := symbol ++ "_long_short_imbalance"
    level := level
    title := symbol ++ " Long/Short Imbalance (" ++ direction ++ " bias)"
    metric := "long_short_ratio" }

def priceOiSurgeSig (symbol : String) : Signal :=
  { id := symbol ++ "_liquidation_risk_alert"
    level := "critical"
    title := symbol ++ " Liquidation Risk Alert"
    metric := "price_oi_surge_combo" }

def panicSellingSig (symbol : String) : Signal :=
  { id := symbol ++ "_panic_selling_risk"
    level := "warn"
    title := symbol ++ " Potential Panic Selling"
    metric := "price_drop_volume_combo" }

def extremeFundingSig (symbol direction : String) : Signal :=
  { id := symbol ++ "_extreme_funding"
    level := "critical"
    title := symbol ++ " Extreme Funding Rate (" ++ direction ++ ")"
    metric := "funding_rate" }

def liquidationRiskSig (symbol : String) : Signal :=
  { id := symbol ++ "_high_liquidation_risk"
    level := "warn"
    title := symbol ++ " High Liquidation Risk"
    metric := "liquidation_ratio" }

def momentumDivergenceSig (symbol : String) : Signal :=
  { id := symbol ++ "_momentum_divergence"
    level := "info"
    title := symbol ++ " Momentum Divergence"
    metric := "momentum_divergence" }

def btcDominanceSig (direction : String) : Signal :=
  { id := "btc_dominance_change"
    level := "info"
    title := "BTC Dominance " ++ direction
    metric := "btc_dominance_change" }

/-! ## The eleven rule checks -/

/-- Rule 1 (`_check_funding_overheated`).  No division, hence pure. -/
def checkFundingOverheated (symbol : String) (deriv_data : DerivData) :
    Option Signal :=
  let funding_rate_24h := deriv_data.funding_rate_24h.getD 0
  if |funding_rate_24h| ≥ funding_rate_overheated then
    let level := if |funding_rate_24h| ≥ funding_rate_extreme
      then "critical" else "warn"
    let direction := if funding_rate_24h > 0 then "long" else "short"
    some (fundingOverheatedSig symbol level direction)
  else none

/-- The store path of `_check_oi_surge` ("Store current data" onwards):
append the current `oi_usd`, then keep only the last 10 entries. -/
def oiSurgeStore (oi_usd : ℚ) (hist : List Entry) : List Entry :=
  let hist2 := hist ++ [{ open_interest_usd := some oi_usd }]
  if hist2.length > 10 then hist2.drop (hist2.length - 10) else hist2

/-- Rule 2 (`_check_oi_surge`).  Note that in the source every path through
the `prev_oi > 0` branch returns before reaching the "Store current data"
code, so the store only happens when history is empty or the stored baseline
is non-positive. -/
def checkOiSurge (symbol : String) (deriv_data : DerivData) (histm : HistMap) :
    Except String (Option Signal × HistMap) := do
  let oi := deriv_data.open_interest.getD 0
  let oi_usd := deriv_data.open_interest_usd.getD oi
  let hist := histm symbol
  match hist.getLast? with
  | some lastEntry =>
    let prev_oi := lastEntry.open_interest_usd.getD oi_usd
    if prev_oi > 0 then
      let oi_change ← cdiv (oi_usd - prev_oi) prev_oi
      if oi_change ≥ oi_increase_critical then
        return (some (oiSurgeSig symbol "critical"), histm)
      else if oi_change ≥ oi_increase_warning then
        return (some (oiSurgeSig symbol "warn"), histm)
      else
        return (none, histm)
    else
      return (none, setH histm symbol (oiSurgeStore oi_usd hist))
  | none => return (none, setH histm symbol (oiSurgeStore oi_usd hist))

/-- Rule 3 (`_check_volatility_spike`). -/
def checkVolatilitySpike (symbol : String) (spot_data : SpotData) :
    Except String (Option Signal) := do
  let change_24h ← cdiv |spot_data.change_24h.getD 0| 100
  let direction := if spot_data.change_24h.getD 0 > 0 then "up" else "down"
  if change_24h ≥ volatility_extreme then
    return some (volatilitySpikeSig symbol "critical" direction)
  else if change_24h ≥ volatility_high then
    return some (volatilitySpikeSig symbol "warn" direction)
  else
    return none

/-- Rule 4 (`_check_volume_surge`).  The source computes
`std_ratio = (Σ (r - mean)² / n) ** 0.5` when `n > 1` and then tests
`std_ratio > 0` and `(volume_ratio - mean) / std_ratio >= 2.0`.  Over the
rationals the square root is not available; since `std_ratio = √variance`
with `variance ≥ 0`, the source's two tests are replaced by the equivalent
rational tests `variance > 0` and
`volume_ratio - mean > 0 ∧ (volume_ratio - mean)² ≥ 2.0² * variance`
(`x / √v ≥ 2 ∧ √v > 0  ↔  x > 0 ∧ x² ≥ 4v`).  The `n = 1` branch
(`std_ratio = mean * 0.1`) is rational and is embedded verbatim. -/
def volumeSurgeSignal (symbol : String) (volume_ratio : ℚ) (hist : List Entry) :
    Except String (Option Signal) := do
  if hist.length > 0 then
    let prev_ratios := (hist.drop (hist.length - 5)).map
      (fun h => h.volume_ratio.getD volume_ratio)
    if prev_ratios.length > 0 then
      let mean_ratio ← cdiv prev_ratios.sum prev_ratios.length
      if prev_ratios.length > 1 then
        let var_ratio ← cdiv
          ((prev_ratios.map (fun r => (r - mean_ratio) ^ 2)).sum)
          prev_ratios.length
        if var_ratio > 0 then
          if volume_ratio - mean_ratio > 0 ∧
              (volume_ratio - mean_ratio) ^ 2 ≥ volume_surge_zscore ^ 2 * var_ratio then
            pure (some (volumeSurgeSig symbol))
          else pure none
        else pure none
      else
        let std_ratio := mean_ratio * 0.1
        if std_ratio > 0 then
          let zscore ← cdiv (volume_ratio - mean_ratio) std_ratio
          if zscore ≥ volume_surge_zscore then
            pure (some (volumeSurgeSig symbol))
          else pure none
        else pure none
    else pure none
  else pure none

def checkVolumeSurge (symbol : String) (spot_data : SpotData) (histm : HistMap) :
    Except String (Option Signal × HistMap) := do
  let volume_24h := spot_data.volume_24h.getD 0
  let market_cap := spot_data.market_cap.getD 1
  let volume_ratio ← if market_cap > 0 then cdiv volume_24h market_cap else pure 0
  let hist := histm symbol
  let sig ← volumeSurgeSignal symbol volume_ratio hist
  match sig with
  | some s => return (some s, histm)
  | none =>
    -- "Store current data"
    let hist2 := if hist.isEmpty
      then [{ volume_ratio := some volume_ratio }]
      else updLast hist (fun e => { e with volume_ratio := some volume_ratio })
    return (none, setH histm symbol hist2)

/-- Rule 5 (`_check_long_short_ratio`). -/
def checkLongShortRatio (symbol : String) (deriv_data : DerivData) :
    Except String (Option Signal) := do
  let ratio := deriv_data.long_short_ratio.getD 1.0
  let invExtreme ← cdiv 1 long_short_ratio_extreme
  let invWarning ← cdiv 1 long_short_ratio_warning
  if ratio ≥ long_short_ratio_extreme then
    return some (longShortSig symbol "warn" "long")
  else if ratio ≤ invExtreme then
    return some (longShortSig symbol "warn" "short")
  else if ratio ≥ long_short_ratio_warning then
    return some (longShortSig symbol "info" "long")
  else if ratio ≤ invWarning then
    return some (longShortSig symbol "info" "short")
  else
    return none

/-- Rule 6 (`_check_price_oi_surge`).  Reads history, never writes it. -/
def checkPriceOiSurge (symbol : String) (spot_data : SpotData)
    (deriv_data : DerivData) (histm : HistMap) : Except String (Option Signal) := do
  let change_24h ← cdiv (spot_data.change_24h.getD 0) 100
  let oi := deriv_data.open_interest_usd.getD 0
  let hist := histm symbol
  let oi_change ← match hist.getLast? with
    | some lastEntry =>
      let prev_oi := lastEntry.open_interest_usd.getD oi
      if prev_oi > 0 then cdiv (oi - prev_oi) prev_oi else pure 0
    | none => pure 0
  if change_24h ≥ price_oi_surge_price ∧ oi_change ≥ price_oi_surge_oi then
    return some (priceOiSurgeSig symbol)
  else
    return none

/-- Rule 7 (`_check_price_drop_volume`).  Reads history, never writes it. -/
def checkPriceDropVolume (symbol : String) (spot_data : SpotData)
    (histm : HistMap) : Except String (Option Signal) := do
  let change_24h ← cdiv (spot_data.change_24h.getD 0) 100
  let volume_24h := spot_data.volume_24h.getD 0
  let market_cap := spot_data.market_cap.getD 1
  let volume_ratio ← if market_cap > 0 then cdiv volume_24h market_cap else pure 0
  let hist := histm symbol
  let volume_change ← match hist.getLast? with
    | some lastEntry =>
      let prev_ratio := lastEntry.volume_ratio.getD volume_ratio
      if prev_ratio > 0 then cdiv (volume_ratio - prev_ratio) prev_ratio else pure 0
    | none => pure 0
  if change_24h ≤ price_drop_volume_price ∧
      volume_change ≥ price_drop_volume_volume then
    return some (panicSellingSig symbol)
  else
    return none

/-- Rule 8 (`_check_extreme_funding`).  No division, hence pure. -/
def checkExtremeFunding (symbol : String) (deriv_data : DerivData) :
    Option Signal :=
  let funding_rate := deriv_data.funding_rate.getD 0
  if |funding_rate| ≥ funding_rate_extreme then
    some (extremeFundingSig symbol (if funding_rate > 0 then "long" else "short"))
  else none

/-- Rule 9 (`_check_liquidation_risk`). -/
def checkLiquidationRisk (symbol : String) (deriv_data : DerivData) :
    Except String (Option Signal) := do
  let long_liq := deriv_data.long_liquidation_24h.getD 0
  let short_liq := deriv_data.short_liquidation_24h.getD 0
  let oi := deriv_data.open_interest_usd.getD 0
  if oi > 0 then
    let liq_ratio ← cdiv (long_liq + short_liq) oi
    if liq_ratio ≥ liquidation_risk_ratio then
      return some (liquidationRiskSig symbol)
    else return none
  else return none

/-- Rule 10 (`_check_momentum_divergence`).  Reads history, never writes. -/
def checkMomentumDivergence (symbol : String) (spot_data : SpotData)
    (deriv_data : DerivData) (histm : HistMap) : Except String (Option Signal) := do
  let change_24h := spot_data.change_24h.getD 0
  let funding_rate := deriv_data.funding_rate.getD 0
  let hist := histm symbol
  let oi_change ← match hist.getLast? with
    | some lastEntry =>
      let oi := deriv_data.open_interest_usd.getD 0
      let prev_oi := lastEntry.open_interest_usd.getD oi
      if prev_oi > 0 then cdiv (oi - prev_oi) prev_oi else pure 0
    | none => pure 0
  if change_24h > 5 ∧ (funding_rate < -0.0005 ∨ oi_change < -0.1) then
    return some (momentumDivergenceSig symbol)
  else if change_24h < -5 ∧ (funding_rate > 0.0005 ∨ oi_change > 0.1) then
    return some (momentumDivergenceSig symbol)
  else
    return none

/-- Rule 11 (`_check_btc_dominance_change`).  Invoked only while processing
the symbol `"BTC"`, so the history list it receives is `_historical_data["BTC"]`. -/
def checkBtcDominanceChange (spot_snapshot : List (String × SpotData))
    (histm : HistMap) : Except String (Option Signal × HistMap) := do
  match alookup spot_snapshot "BTC" with
  | none => return (none, histm)
  | some btcData =>
    let btc_mcap := btcData.market_cap.getD 0
    let total_mcap := (spot_snapshot.map (fun p => p.2.market_cap.getD 0)).sum
    if total_mcap = 0 then
      return (none, histm)
    else
      let btc_dominance ← cdiv btc_mcap total_mcap
      let hist := histm "BTC"
      match hist.getLast? with
      | some lastEntry =>
        let prev_dom := lastEntry.btc_dominance.getD btc_dominance
        let dom_change := btc_dominance - prev_dom
        if |dom_change| ≥ 0.02 then
          return (some (btcDominanceSig
            (if dom_change > 0 then "Increasing" else "Decreasing")), histm)
        else
          return (none, setH histm "BTC"
            (updLast hist (fun e => { e with btc_dominance := some btc_dominance })))
      | none =>
        return (none, setH histm "BTC" [{ btc_dominance := some btc_dominance }])

/-! ## `analyze` -/

/-- Append a fired signal together with its rationale entry
(the `if signal: signals.append(...); regime_rationale.append(...)` pattern). -/
def addSig (acc : List Signal × List String) (sig : Option Signal) (r : String) :
    List Signal × List String :=
  match sig with
  | some s => (acc.1 ++ [s], acc.2 ++ [r])
  | none => acc

/-- The per-symbol body of `analyze`'s loop: rules 1–11 in source order.
Returns the signals and rationale entries produced for this symbol and the
updated history list for this symbol's key. -/
def symbolStep (spot_snapshot : List (String × SpotData)) (symbol : String)
    (spot_data : SpotData) (deriv_data : DerivData) (histm : HistMap) :
    Except String (List Signal × List String × HistMap) := do
  let acc := addSig ([], []) (checkFundingOverheated symbol deriv_data)
    (symbol ++ ": Funding rate elevated")
  let (sig2, histm) ← checkOiSurge symbol deriv_data histm
  let acc := addSig acc sig2 (symbol ++ ": Open interest surge")
  let sig3 ← checkVolatilitySpike symbol spot_data
  let acc := addSig acc sig3 (symbol ++ ": High volatility")
  let (sig4, histm) ← checkVolumeSurge symbol spot_data histm
  let acc := addSig acc sig4 (symbol ++ ": Volume surge")
  let sig5 ← checkLongShortRatio symbol deriv_data
  let acc := addSig acc sig5 (symbol ++ ": Long/short imbalance")
  let sig6 ← checkPriceOiSurge symbol spot_data deriv_data histm
  let acc := addSig acc sig6 (symbol ++ ": Liquidation risk alert")
  let sig7 ← checkPriceDropVolume symbol spot_data histm
  let acc := addSig acc sig7 (symbol ++ ": Potential panic selling")
  let acc := addSig acc (checkExtremeFunding symbol deriv_data)
    (symbol ++ ": Extreme funding rate")
  let sig9 ← checkLiquidationRisk symbol deriv_data
  let acc := addSig acc sig9 (symbol ++ ": High liquidation risk")
  let sig10 ← checkMomentumDivergence symbol spot_data deriv_data histm
  let acc := addSig acc sig10 (symbol ++ ": Momentum divergence")
  let (sig11, histm) ←
    if symbol = "BTC" ∧ (spot_snapshot.map Prod.fst).dedup.length > 1 then
      checkBtcDominanceChange spot_snapshot histm
    else
      pure (none, histm)
  let acc := addSig acc sig11 "BTC dominance shift"
  return (acc.1, acc.2, histm)

/-- `symbols = set(spot_snapshot.keys()) & set(derivatives_snapshot.keys())`,
in a canonical iteration order (the source iterates a Python `set`, whose
order is unspecified). -/
def analyzedSymbols (spot : List (String × SpotData))
    (deriv : List (String × DerivData)) : List String :=
  (spot.map Prod.fst).dedup.filter (fun k => (alookup deriv k).isSome)

/-- The `for symbol in symbols:` loop of `analyze`. -/
def analyzeLoop (spot : List (String × SpotData)) (deriv : List (String × DerivData)) :
    List String → List Signal → List String → HistMap →
    Except String (List Signal × List String × HistMap)
  | [], signals, rationale, histm => .ok (signals, rationale, histm)
  | symbol :: rest, signals, rationale, histm =>
    match alookup spot symbol, alookup deriv symbol with
    | some spot_data, some deriv_data =>
      match symbolStep spot symbol spot_data deriv_data histm with
      | .error e => .error e
      | .ok (prod, pr, histm2) =>
        analyzeLoop spot deriv rest (signals ++ prod) (rationale ++ pr) histm2
    | _, _ => analyzeLoop spot deriv rest signals rationale histm

/-- `_determine_regime`. -/
def determineRegime (signals : List Signal) (rationale : List String) : Regime :=
  if signals = [] then
    { label := "neutral", rationale := ["No significant signals detected"] }
  else
    let critical_count := (signals.filter (fun s => s.level = "critical")).length
    let warn_count := (signals.filter (fun s => s.level = "warn")).length
    let label :=
      if critical_count ≥ 2 then "risk_off"
      else if critical_count ≥ 1 ∨ warn_count ≥ 3 then "risk_off"
      else if warn_count ≥ 1 then "neutral"
      else "risk_on"
    { label := label, rationale := rationale.take 10 }

/-- `SignalEngine.analyze`.  `timestamp` stands for `datetime.utcnow().isoformat()`. -/
def analyze (spot : List (String × SpotData)) (deriv : List (String × DerivData))
    (histm : HistMap) (timestamp : String) :
    Except String (AnalyzeResult × HistMap) :=
  match analyzeLoop spot deriv (analyzedSymbols spot deriv) [] [] histm with
  | .error e => .error e
  | .ok (signals, rationale, histm2) =>
    .ok ({ signals := signals
           regime := determineRegime signals rationale
           timestamp := timestamp }, histm2)

/-! ## Total shadows of the monadic checks

Every division the source performs is guarded (`prev_oi > 0`,
`market_cap > 0`, `len(prev_ratios) > 0`, `std_ratio > 0`, `oi > 0`,
`total_mcap != 0`, or a non-zero literal), so each `Except`-valued check
always succeeds.  The `…Run` definitions below compute the same value with
Lean's total division, acting directly on the one history list
`_historical_data[symbol]` the check touches; the `…_eq` lemmas prove the
two presentations coincide, which both establishes that no check can raise
and lets later proofs work with pure per-symbol functions. -/

/-- Total shadow of `checkOiSurge`, acting on this symbol's history list. -/
def oiSurgeRun (symbol : String) (deriv_data : DerivData) (hist : List Entry) :
    Option Signal × List Entry :=
  let oi := deriv_data.open_interest.getD 0
  let oi_usd := deriv_data.open_interest_usd.getD oi
  match hist.getLast? with
  | some lastEntry =>
    let prev_oi := lastEntry.open_interest_usd.getD oi_usd
    if prev_oi > 0 then
      let oi_change := (oi_usd - prev_oi) / prev_oi
      if oi_change ≥ oi_increase_critical then
        (some (oiSurgeSig symbol "critical"), hist)
      else if oi_change ≥ oi_increase_warning then
        (some (oiSurgeSig symbol "warn"), hist)
      else
        (none, hist)
    else (none, oiSurgeStore oi_usd hist)
  | none => (none, oiSurgeStore oi_usd hist)

/-- Total shadow of `checkVolatilitySpike`. -/
def volatilitySpikeRun (symbol : String) (spot_data : SpotData) : Option Signal :=
  let change_24h := |spot_data.change_24h.getD 0| / 100
  let direction := if spot_data.change_24h.getD 0 > 0 then "up" else "down"
  if change_24h ≥ volatility_extreme then
    some (volatilitySpikeSig symbol "critical" direction)
  else if change_24h ≥ volatility_high then
    some (volatilitySpikeSig symbol "warn" direction)
  else
    none

/-- The `volume_ratio` both rule 4 and rule 7 compute. -/
def volumeRatioOf (spot_data : SpotData) : ℚ :=
  if spot_data.market_cap.getD 1 > 0
  then spot_data.volume_24h.getD 0 / spot_data.market_cap.getD 1
  else 0

/-- Total shadow of `volumeSurgeSignal`. -/
def volumeSurgeSignalRun (symbol : String) (volume_ratio : ℚ) (hist : List Entry) :
    Option Signal :=
  if hist.length > 0 then
    let prev_ratios := (hist.drop (hist.length - 5)).map
      (fun h => h.volume_ratio.getD volume_ratio)
    if prev_ratios.length > 0 then
      let mean_ratio := prev_ratios.sum / (prev_ratios.length : ℚ)
      if prev_ratios.length > 1 then
        let var_ratio :=
          ((prev_ratios.map (fun r => (r - mean_ratio) ^ 2)).sum) / (prev_ratios.length : ℚ)
        if var_ratio > 0 then
          if volume_ratio - mean_ratio > 0 ∧
              (volume_ratio - mean_ratio) ^ 2 ≥ volume_surge_zscore ^ 2 * var_ratio then
            some (volumeSurgeSig symbol)
          else none
        else none
      else
        let std_ratio := mean_ratio * 0.1
        if std_ratio > 0 then
          if (volume_ratio - mean_ratio) / std_ratio ≥ volume_surge_zscore then
            some (volumeSurgeSig symbol)
          else none
        else none
    else none
  else none

/-- Total shadow of `checkVolumeSurge`, acting on this symbol's history list. -/
def volumeSurgeRun (symbol : String) (spot_data : SpotData) (hist : List Entry) :
    Option Signal × List Entry :=
  let volume_ratio := volumeRatioOf spot_data
  match volumeSurgeSignalRun symbol volume_ratio hist with
  | some s => (some s, hist)
  | none =>
    (none, if hist.isEmpty
      then [{ volume_ratio := some volume_ratio }]
      else updLast hist (fun e => { e with volume_ratio := some volume_ratio }))

/-- Total shadow of `checkLongShortRatio`. -/
def longShortRatioRun (symbol : String) (deriv_data : DerivData) : Option Signal :=
  let ratio := deriv_data.long_short_ratio.getD 1.0
  if ratio ≥ long_short_ratio_extreme then
    some (longShortSig symbol "warn" "long")
  else if ratio ≤ 1 / long_short_ratio_extreme then
    some (longShortSig symbol "warn" "short")
  else if ratio ≥ long_short_ratio_warning then
    some (longShortSig symbol "info" "long")
  else if ratio ≤ 1 / long_short_ratio_warning then
    some (longShortSig symbol "info" "short")
  else
    none

/-- The OI delta rules 6 and 10 recompute from the last history entry. -/
def oiChangeOf (deriv_data : DerivData) (hist : List Entry) : ℚ :=
  match hist.getLast? with
  | some lastEntry =>
    let oi := deriv_data.open_interest_usd.getD 0
    let prev_oi := lastEntry.open_interest_usd.getD oi
    if prev_oi > 0 then (oi - prev_oi) / prev_oi else 0
  | none => 0

/-- Total shadow of `checkPriceOiSurge`. -/
def priceOiSurgeRun (symbol : String) (spot_data : SpotData)
    (deriv_data : DerivData) (hist : List Entry) : Option Signal :=
  let change_24h := spot_data.change_24h.getD 0 / 100
  let oi_change := oiChangeOf deriv_data hist
  if change_24h ≥ price_oi_surge_price ∧ oi_change ≥ price_oi_surge_oi then
    some (priceOiSurgeSig symbol)
  else
    none

/-- Total shadow of `checkPriceDropVolume`. -/
def priceDropVolumeRun (symbol : String) (spot_data : SpotData)
    (hist : List Entry) : Option Signal :=
  let change_24h := spot_data.change_24h.getD 0 / 100
  let volume_ratio := volumeRatioOf spot_data
  let volume_change :=
    match hist.getLast? with
    | some lastEntry =>
      let prev_ratio := lastEntry.volume_ratio.getD volume_ratio
      if prev_ratio > 0 then (volume_ratio - prev_ratio) / prev_ratio else 0
    | none => 0
  if change_24h ≤ price_drop_volume_price ∧
      volume_change ≥ price_drop_volume_volume then
    some (panicSellingSig symbol)
  else
    none

/-- Total shadow of `checkLiquidationRisk`. -/
def liquidationRiskRun (symbol : String) (deriv_data : DerivData) : Option Signal :=
  let oi := deriv_data.open_interest_usd.getD 0
  if oi > 0 then
    let liq_ratio := (deriv_data.long_liquidation_24h.getD 0
      + deriv_data.short_liquidation_24h.getD 0) / oi
    if liq_ratio ≥ liquidation_risk_ratio then
      some (liquidationRiskSig symbol)
    else none
  else none

/-- Total shadow of `checkMomentumDivergence`. -/
def momentumDivergenceRun (symbol : String) (spot_data : SpotData)
    (deriv_data : DerivData) (hist : List Entry) : Option Signal :=
  let change_24h := spot_data.change_24h.getD 0
  let funding_rate := deriv_data.funding_rate.getD 0
  let oi_change := oiChangeOf deriv_data hist
  if change_24h > 5 ∧ (funding_rate < -0.0005 ∨ oi_change < -0.1) then
    some (momentumDivergenceSig symbol)
  else if change_24h < -5 ∧ (funding_rate > 0.0005 ∨ oi_change > 0.1) then
    some (momentumDivergenceSig symbol)
  else
    none

/-- Total shadow of `checkBtcDominanceChange`, acting on the `"BTC"` history
list (rule 11 runs only while the symbol being processed is `"BTC"`). -/
def btcDominanceRun (spot_snapshot : List (String × SpotData)) (hist : List Entry) :
    Option Signal × List Entry :=
  match alookup spot_snapshot "BTC" with
  | none => (none, hist)
  | some btcData =>
    let btc_mcap := btcData.market_cap.getD 0
    let total_mcap := (spot_snapshot.map (fun p => p.2.market_cap.getD 0)).sum
    if total_mcap = 0 then
      (none, hist)
    else
      let btc_dominance := btc_mcap / total_mcap
      match hist.getLast? with
      | some lastEntry =>
        let dom_change := btc_dominance - lastEntry.btc_dominance.getD btc_dominance
        if |dom_change| ≥ 0.02 then
          (some (btcDominanceSig
            (if dom_change > 0 then "Increasing" else "Decreasing")), hist)
        else
          (none, updLast hist (fun e => { e with btc_dominance := some btc_dominance }))
      | none =>
        (none, [{ btc_dominance := some btc_dominance }])

/-- Total shadow of `symbolStep`, acting on this symbol's history list.
`r2` and `r4` are the (signal, updated history) results of the two
history-writing rules 2 and 4; the later rules read `r4.2`. -/
def symbolStepRun (spot_snapshot : List (String × SpotData)) (symbol : String)
    (spot_data : SpotData) (deriv_data : DerivData) (hist : List Entry) :
    List Signal × List String × List Entry :=
  let acc := addSig ([], []) (checkFundingOverheated symbol deriv_data)
    (symbol ++ ": Funding rate elevated")
  let r2 := oiSurgeRun symbol deriv_data hist
  let acc := addSig acc r2.1 (symbol ++ ": Open interest surge")
  let acc := addSig acc (volatilitySpikeRun symbol spot_data)
    (symbol ++ ": High volatility")
  let r4 := volumeSurgeRun symbol spot_data r2.2
  let acc := addSig acc r4.1 (symbol ++ ": Volume surge")
  let acc := addSig acc (longShortRatioRun symbol deriv_data)
    (symbol ++ ": Long/short imbalance")
  let acc := addSig acc (priceOiSurgeRun symbol spot_data deriv_data r4.2)
    (symbol ++ ": Liquidation risk alert")
  let acc := addSig acc (priceDropVolumeRun symbol spot_data r4.2)
    (symbol ++ ": Potential panic selling")
  let acc := addSig acc (checkExtremeFunding symbol deriv_data)
    (symbol ++ ": Extreme funding rate")
  let acc := addSig acc (liquidationRiskRun symbol deriv_data)
    (symbol ++ ": High liquidation risk")
  let acc := addSig acc (momentumDivergenceRun symbol spot_data deriv_data r4.2)
    (symbol ++ ": Momentum divergence")
  let r11 :=
    if symbol = "BTC" ∧ (spot_snapshot.map Prod.fst).dedup.length > 1 then
      btcDominanceRun spot_snapshot r4.2
    else
      (none, r4.2)
  let acc := addSig acc r11.1 "BTC dominance shift"
  (acc.1, acc.2, r11.2)

/-- Total shadow of `analyzeLoop`. -/
def analyzeLoopRun (spot : List (String × SpotData))
    (deriv : List (String × DerivData)) :
    List String → List Signal → List String → HistMap →
    List Signal × List String × HistMap
  | [], signals, rationale, histm => (signals, rationale, histm)
  | symbol :: rest, signals, rationale, histm =>
    match alookup spot symbol, alookup deriv symbol with
    | some spot_data, some deriv_data =>
      let t := symbolStepRun spot symbol spot_data deriv_data (histm symbol)
      analyzeLoopRun spot deriv rest (signals ++ t.1) (rationale ++ t.2.1)
        (setH histm symbol t.2.2)
    | _, _ => analyzeLoopRun spot deriv rest signals rationale histm

/-- Total shadow of `analyze`. -/
def analyzeRun (spot : List (String × SpotData)) (deriv : List (String × DerivData))
    (histm : HistMap) (timestamp : String) : AnalyzeResult × HistMap :=
  let t := analyzeLoopRun spot deriv (analyzedSymbols spot deriv) [] [] histm
  ({ signals := t.1
     regime := determineRegime t.1 t.2.1
     timestamp := timestamp }, t.2.2)

/-- `sig` and `r` were produced together by one rule firing: `sig` is the
signal some rule returned for some inputs and `r` is exactly the rationale
string `analyze` appends alongside that rule's signals. -/
def SigRat (sig : Signal) (r : String) : Prop :=
  (∃ symbol deriv_data, checkFundingOverheated symbol deriv_data = some sig
     ∧ r = symbol ++ ": Funding rate elevated") ∨
  (∃ symbol deriv_data hist, (oiSurgeRun symbol deriv_data hist).1 = some sig
     ∧ r = symbol ++ ": Open interest surge") ∨
  (∃ symbol spot_data, volatilitySpikeRun symbol spot_data = some sig
     ∧ r = symbol ++ ": High volatility") ∨
  (∃ symbol spot_data hist, (volumeSurgeRun symbol spot_data hist).1 = some sig
     ∧ r = symbol ++ ": Volume surge") ∨
  (∃ symbol deriv_data, longShortRatioRun symbol deriv_data = some sig
     ∧ r = symbol ++ ": Long/short imbalance") ∨
  (∃ symbol spot_data deriv_data hist,
     priceOiSurgeRun symbol spot_data deriv_data hist = some sig
     ∧ r = symbol ++ ": Liquidation risk alert") ∨
  (∃ symbol spot_data hist, priceDropVolumeRun symbol spot_data hist = some sig
     ∧ r = symbol ++ ": Potential panic selling") ∨
  (∃ symbol deriv_data, checkExtremeFunding symbol deriv_data = some sig
     ∧ r = symbol ++ ": Extreme funding rate") ∨
  (∃ symbol deriv_data, liquidationRiskRun symbol deriv_data = some sig
     ∧ r = symbol ++ ": High liquidation risk") ∨
  (∃ symbol spot_data deriv_data hist,
     momentumDivergenceRun symbol spot_data deriv_data hist = some sig
     ∧ r = symbol ++ ": Momentum divergence") ∨
  (∃ spot_snapshot hist, (btcDominanceRun spot_snapshot hist).1 = some sig
     ∧ r = "BTC dominance shift")

/-! ## Provider layer

`app/providers/factory.py`, `app/providers/mock_provider.py` and
`app/providers/public_provider.py`.

Modelling conventions for this layer:
* network I/O is the environment: the CoinGecko call of `get_spot_snapshot`
  is an `Option (List (String × CGEntry))` (`none` = any of the caught
  `httpx.HTTPStatusError` / `httpx.RequestError` / unexpected exceptions),
  and the per-symbol Binance block of `get_derivatives_snapshot` is a
  function `String → Option DerivData` (`none` = the per-symbol
  `except ... continue` paths);
* `random.uniform` draws of the mock provider are an environment
  `String → MockRand` giving each symbol its drawn values; the mock's
  60-second in-process cache is time-dependent and is elided (a freshly
  constructed provider performing one call never hits it);
* Python `round(x, n)` (round-half-to-even) is `roundTo n x` on exact
  rationals. -/

/-- Python `str.upper()` (ASCII), character-wise like `String.toUpper`. -/
def pyUpper (s : String) : String := ⟨s.data.map Char.toUpper⟩

/-- Python `str.lower()` (ASCII), character-wise like `String.toLower`. -/
def pyLower (s : String) : String := ⟨s.data.map Char.toLower⟩

/-- `round(x, d)`: half-to-even rounding to `d` decimal digits. -/
def roundHalfEven (x : ℚ) : ℤ :=
  let n := ⌊x⌋
  if x - n < 1 / 2 then n
  else if x - n > 1 / 2 then n + 1
  else if n % 2 = 0 then n else n + 1

def roundTo (d : ℕ) (x : ℚ) : ℚ := (roundHalfEven (x * 10 ^ d) : ℚ) / 10 ^ d

/-- Python dict insertion `result[k] = v`: update in place if the key is
present, else append. -/
def dictInsert {α : Type} (l : List (String × α)) (k : String) (v : α) :
    List (String × α) :=
  if (alookup l k).isSome then l.map (fun p => if p.1 = k then (k, v) else p)
  else l ++ [(k, v)]

/-- The provider that `get_market_provider` returns. -/
inductive ProviderKind where
  | mock
  | public
deriving DecidableEq, Repr

/-- `get_market_provider` (`factory.py`); the argument stands for
`settings.provider`. -/
def get_market_provider (provider : String) : ProviderKind :=
  let provider_type := pyLower provider
  if provider_type = "mock" then ProviderKind.mock
  else if provider_type = "public" then ProviderKind.public
  else if provider_type = "real" then ProviderKind.mock  -- not implemented yet
  else ProviderKind.mock

/-- `MockMarketProvider.is_available`. -/
def mockIsAvailable : Bool := true

/-- `MockMarketProvider.BASE_PRICES`. -/
def BASE_PRICES : List (String × ℚ) := [("BTC", 45000), ("ETH", 2500)]

/-- `MockMarketProvider.BASE_MARKET_CAPS`. -/
def BASE_MARKET_CAPS : List (String × ℚ) :=
  [("BTC", 900000000000), ("ETH", 300000000000)]

/-- The `random.uniform` draws one mock-provider symbol consumes. -/
structure MockRand where
  variation : ℚ := 0
  change_24h : ℚ := 0
  volume_multiplier : ℚ := 0
  high_mult : ℚ := 1
  low_mult : ℚ := 1
  funding_rate : ℚ := 0
  oi_mult : ℚ := 0
  long_short_ratio : ℚ := 1
  long_liquidation_24h : ℚ := 0
  short_liquidation_24h : ℚ := 0
deriving DecidableEq, Repr

/-- The spot record `MockMarketProvider.get_spot_snapshot` generates for one
known symbol. -/
def mockSpotData (symbol_upper : String) (r : MockRand) : SpotData :=
  let base_price := (alookup BASE_PRICES symbol_upper).getD 0
  let base_market_cap :=
    (alookup BASE_MARKET_CAPS symbol_upper).getD (base_price * 20000000)
  let current_price := base_price * (1 + r.variation)
  let change_24h := r.change_24h
  let volume_24h := base_market_cap * r.volume_multiplier
  let market_cap := base_market_cap * (1 + change_24h / 100)
  { price := some (roundTo 2 current_price)
    change_24h := some (roundTo 2 change_24h)
    volume_24h := some (roundTo 2 volume_24h)
    market_cap := some (roundTo 2 market_cap)
    high_24h := some (roundTo 2 (current_price * r.high_mult))
    low_24h := some (roundTo 2 (current_price * r.low_mult)) }

/-- `MockMarketProvider.get_spot_snapshot` (fresh provider, single call). -/
def mockGetSpotSnapshot (symbols : List String) (rnd : String → MockRand) :
    List (String × SpotData) :=
  symbols.foldl (fun result symbol =>
    let symbol_upper := pyUpper symbol
    if (alookup BASE_PRICES symbol_upper).isSome then
      dictInsert result symbol_upper (mockSpotData symbol_upper (rnd symbol_upper))
    else result) []

/-- The derivatives record `MockMarketProvider.get_derivatives_snapshot`
generates for one known symbol. -/
def mockDerivData (symbol_upper : String) (r : MockRand) : DerivData :=
  let funding_rate := r.funding_rate
  let funding_rate_24h := funding_rate * 3  -- 3 periods per day
  let base_market_cap := (alookup BASE_MARKET_CAPS symbol_upper).getD 100000000000
  let open_interest := base_market_cap * r.oi_mult
  { funding_rate := some (roundTo 6 funding_rate)
    funding_rate_24h := some (roundTo 6 funding_rate_24h)
    open_interest := some (roundTo 2 open_interest)
    open_interest_usd := some (roundTo 2 open_interest)
    long_short_ratio := some (roundTo 3 r.long_short_ratio)
    long_liquidation_24h := some (roundTo 2 r.long_liquidation_24h)
    short_liquidation_24h := some (roundTo 2 r.short_liquidation_24h) }

/-- `MockMarketProvider.get_derivatives_snapshot` (fresh provider, single call). -/
def mockGetDerivativesSnapshot (symbols : List String) (rnd : String → MockRand) :
    List (String × DerivData) :=
  symbols.foldl (fun result symbol =>
    let symbol_upper := pyUpper symbol
    if (alookup BASE_PRICES symbol_upper).isSome then
      dictInsert result symbol_upper (mockDerivData symbol_upper (rnd symbol_upper))
    else result) []

/-- `SYMBOL_TO_COINGECKO_ID` (`public_provider.py`). -/
def SYMBOL_TO_COINGECKO_ID : List (String × String) :=
  [("BTC", "bitcoin"), ("ETH", "ethereum"), ("BNB", "binancecoin"),
   ("SOL", "solana"), ("ADA", "cardano"), ("XRP", "ripple"),
   ("DOGE", "dogecoin"), ("DOT", "polkadot"), ("MATIC", "matic-network"),
   ("AVAX", "avalanche-2")]

/-- `SYMBOL_TO_BINANCE_SYMBOL` (`public_provider.py`). -/
def SYMBOL_TO_BINANCE_SYMBOL : List (String × String) :=
  [("BTC", "BTCUSDT"), ("ETH", "ETHUSDT"), ("BNB", "BNBUSDT"),
   ("SOL", "SOLUSDT"), ("ADA", "ADAUSDT"), ("XRP", "XRPUSDT"),
   ("DOGE", "DOGEUSDT"), ("DOT", "DOTUSDT"), ("MATIC", "MATICUSDT"),
   ("AVAX", "AVAXUSDT")]

/-- One coin's entry of the CoinGecko `simple/price` response. -/
structure CGEntry where
  usd : Option ℚ := none
  usd_24h_change : Option ℚ := none
  usd_24h_vol : Option ℚ := none
  usd_market_cap : Option ℚ := none
  usd_24h_high : Option ℚ := none
  usd_24h_low : Option ℚ := none
deriving DecidableEq, Repr

/-- The network environment one `PublicProvider` call pair observes. -/
structure ProviderEnv where
  /-- Outcome of the CoinGecko `simple/price` request: `none` = raised
  (HTTP error, request error, unexpected error), `some` = parsed body. -/
  spotFetch : Option (List (String × CGEntry))
  /-- Outcome of the whole per-symbol Binance request block, keyed by
  upper-cased symbol: `none` = one of the caught exceptions (→ `continue`). -/
  derivFetch : String → Option DerivData

/-- `PublicProvider.get_spot_snapshot`. -/
def publicGetSpotSnapshot (symbols : List String) (env : ProviderEnv)
    (rnd : String → MockRand) : List (String × SpotData) :=
  let idsAndMap := symbols.foldl
    (fun (acc : List String × List (String × String)) symbol =>
      let symbol_upper := pyUpper symbol
      match alookup SYMBOL_TO_COINGECKO_ID symbol_upper with
      | some coin_id => (acc.1 ++ [coin_id], dictInsert acc.2 coin_id symbol_upper)
      | none => acc) ([], [])
  if idsAndMap.1 = [] then mockGetSpotSnapshot symbols rnd
  else
    match env.spotFetch with
    | none => mockGetSpotSnapshot symbols rnd
    | some price_data =>
      let result := price_data.foldl (fun result p =>
        match alookup idsAndMap.2 p.1 with
        | none => result
        | some symbol => dictInsert result symbol
            { price := some (p.2.usd.getD 0)
              change_24h := some (p.2.usd_24h_change.getD 0)
              volume_24h := some (p.2.usd_24h_vol.getD 0)
              market_cap := some (p.2.usd_market_cap.getD 0)
              high_24h := some (p.2.usd_24h_high.getD 0)
              low_24h := some (p.2.usd_24h_low.getD 0) }) []
      if result = [] then mockGetSpotSnapshot symbols rnd else result

/-- `PublicProvider.get_derivatives_snapshot`. -/
def publicGetDerivativesSnapshot (symbols : List String) (env : ProviderEnv)
    (rnd : String → MockRand) : List (String × DerivData) :=
  let result := symbols.foldl (fun result symbol =>
    let symbol_upper := pyUpper symbol
    if (alookup SYMBOL_TO_BINANCE_SYMBOL symbol_upper).isSome then
      match env.derivFetch symbol_upper with
      | some data => dictInsert result symbol_upper data
      | none => result
    else result) []
  if result = [] then mockGetDerivativesSnapshot symbols rnd else result

/-! ## Concrete sample inputs

Example snapshots used by the witness theorems below; the extreme-conditions
pair mirrors `test_signal_engine.py`'s `test_signal_engine_with_extreme_data`. -/

def exSpot : List (String × SpotData) :=
  [("BTC", { price := some 50000, change_24h := some 20,
             volume_24h := some 50000000000,
             market_cap := some 1000000000000 })]

def exDeriv : List (String × DerivData) :=
  [("BTC", { funding_rate := some 0.06, funding_rate_24h := some 0.08,
             open_interest := some 150000000000,
             open_interest_usd := some 150000000000,
             long_short_ratio := some 2.0,
             long_liquidation_24h := some 200000000,
             short_liquidation_24h := some 100000000 })]

/-- What `analyze` computes on `(exSpot, exDeriv)` from a cold engine. -/
def exRes : AnalyzeResult :=
  { signals :=
      [fundingOverheatedSig "BTC" "critical" "long",
       volatilitySpikeSig "BTC" "critical" "up",
       longShortSig "BTC" "warn" "long",
       extremeFundingSig "BTC" "long"]
    regime :=
      { label := "risk_off"
        rationale := ["BTC: Funding rate elevated", "BTC: High volatility",
                      "BTC: Long/short imbalance", "BTC: Extreme funding rate"] }
    timestamp := "t" }

/-- The engine history after that call. -/
def exHistAfter : HistMap :=
  setH emptyHist "BTC"
    [{ open_interest_usd := some 150000000000, volume_ratio := some (1 / 20) }]

/-- Spot snapshot for the repeated-call scenario (flat price, fixed volume). -/
def cSpot : List (String × SpotData) :=
  [("BTC", { change_24h := some 0, volume_24h := some 10, market_cap := some 100 })]

/-- Derivatives snapshot with the given open interest. -/
def cDeriv (oi : ℚ) : List (String × DerivData) :=
  [("BTC", { open_interest_usd := some oi })]

/-- The engine history shared by all calls of the repeated-call scenario:
the baseline seeded by the first call is never overwritten. -/
def cH : HistMap :=
  setH emptyHist "BTC"
    [{ open_interest_usd := some 100, volume_ratio := some (1 / 10) }]

/-! # Theorems

First the bridge between the `Except`-monadic checks and their total
shadows: each check always succeeds and computes its shadow's value. -/

theorem cdiv_ok (a b : ℚ) (h : b ≠ 0) : cdiv a b = .ok (a / b) := by
  unfold cdiv; simp [h]

theorem ebind_ok {α β : Type} (a : α) (f : α → Except String β) :
    (Except.ok a >>= f : Except String β) = f a := rfl

theorem epure_bind {α β : Type} (a : α) (f : α → Except String β) :
    ((pure a : Except String α) >>= f) = f a := rfl

theorem setH_same (m : HistMap) (k : String) (v : List Entry) : setH m k v k = v := by
  unfold setH; simp

theorem setH_other (m : HistMap) (k s : String) (v : List Entry) (h : s ≠ k) :
    setH m k v s = m s := by
  unfold setH; simp [h]

theorem setH_self (m : HistMap) (k : String) : setH m k (m k) = m := by
  funext s
  unfold setH
  split
  · next h => rw [h]
  · rfl

theorem setH_setH (m : HistMap) (k : String) (v w : List Entry) :
    setH (setH m k v) k w = setH m k w := by
  funext s
  unfold setH
  split <;> rfl

theorem checkOiSurge_eq (symbol : String) (deriv_data : DerivData) (histm : HistMap) :
    checkOiSurge symbol deriv_data histm
      = .ok ((oiSurgeRun symbol deriv_data (histm symbol)).1,
             setH histm symbol (oiSurgeRun symbol deriv_data (histm symbol)).2) := by
  unfold checkOiSurge oiSurgeRun
  dsimp only
  cases h : (histm symbol).getLast? with
  | none => rfl
  | some lastEntry =>
    simp only [h]
    split
    · next hp =>
      rw [cdiv_ok _ _ (ne_of_gt hp), ebind_ok]
      split
      · rw [setH_self]; rfl
      · split <;> rw [setH_self] <;> rfl
    · rfl

theorem checkVolatilitySpike_eq (symbol : String) (spot_data : SpotData) :
    checkVolatilitySpike symbol spot_data = .ok (volatilitySpikeRun symbol spot_data) := by
  unfold checkVolatilitySpike volatilitySpikeRun
  rw [cdiv_ok _ _ (by norm_num), ebind_ok]
  dsimp only
  split
  · rfl
  · split <;> rfl

theorem volumeSurgeSignal_eq (symbol : String) (volume_ratio : ℚ) (hist : List Entry) :
    volumeSurgeSignal symbol volume_ratio hist
      = .ok (volumeSurgeSignalRun symbol volume_ratio hist) := by
  unfold volumeSurgeSignal volumeSurgeSignalRun
  dsimp only
  split
  · split
    · next h2 =>
      rw [cdiv_ok _ _ (Nat.cast_ne_zero.mpr (by omega)), ebind_ok]
      split
      · rw [cdiv_ok _ _ (Nat.cast_ne_zero.mpr (by omega)), ebind_ok]
        split
        · split <;> rfl
        · rfl
      · split
        · next h4 =>
          rw [cdiv_ok _ _ (ne_of_gt h4), ebind_ok]
          split <;> rfl
        · rfl
    · rfl
  · rfl

theorem checkVolumeSurge_eq (symbol : String) (spot_data : SpotData) (histm : HistMap) :
    checkVolumeSurge symbol spot_data histm
      = .ok ((volumeSurgeRun symbol spot_data (histm symbol)).1,
             setH histm symbol (volumeSurgeRun symbol spot_data (histm symbol)).2) := by
  unfold checkVolumeSurge volumeSurgeRun volumeRatioOf
  dsimp only
  split
  · next h =>
    rw [cdiv_ok _ _ (ne_of_gt h), ebind_ok, volumeSurgeSignal_eq, ebind_ok]
    cases hs : volumeSurgeSignalRun symbol
        (spot_data.volume_24h.getD 0 / spot_data.market_cap.getD 1) (histm symbol) <;>
      simp only [hs] <;> first | rfl | (rw [setH_self]; rfl)
  · rw [epure_bind, volumeSurgeSignal_eq, ebind_ok]
    cases hs : volumeSurgeSignalRun symbol 0 (histm symbol) <;>
      simp only [hs] <;> first | rfl | (rw [setH_self]; rfl)

theorem checkLongShortRatio_eq (symbol : String) (deriv_data : DerivData) :
    checkLongShortRatio symbol deriv_data = .ok (longShortRatioRun symbol deriv_data) := by
  unfold checkLongShortRatio longShortRatioRun
  rw [cdiv_ok _ _ (by norm_num [long_short_ratio_extreme]), ebind_ok,
    cdiv_ok _ _ (by norm_num [long_short_ratio_warning]), ebind_ok]
  dsimp only
  split
  · rfl
  · split
    · rfl
    · split
      · rfl
      · split <;> rfl

theorem checkPriceOiSurge_eq (symbol : String) (spot_data : SpotData)
    (deriv_data : DerivData) (histm : HistMap) :
    checkPriceOiSurge symbol spot_data deriv_data histm
      = .ok (priceOiSurgeRun symbol spot_data deriv_data (histm symbol)) := by
  unfold checkPriceOiSurge priceOiSurgeRun oiChangeOf
  rw [cdiv_ok _ _ (by norm_num : (100 : ℚ) ≠ 0), ebind_ok]
  dsimp only
  cases h : (histm symbol).getLast? with
  | none => simp only [h]; rw [epure_bind]; split <;> rfl
  | some lastEntry =>
    simp only [h]
    split
    · next hp => rw [cdiv_ok _ _ (ne_of_gt hp), ebind_ok]; split <;> rfl
    · rw [epure_bind]; split <;> rfl

theorem checkPriceDropVolume_eq (symbol : String) (spot_data : SpotData)
    (histm : HistMap) :
    checkPriceDropVolume symbol spot_data histm
      = .ok (priceDropVolumeRun symbol spot_data (histm symbol)) := by
  unfold checkPriceDropVolume priceDropVolumeRun volumeRatioOf
  rw [cdiv_ok _ _ (by norm_num : (100 : ℚ) ≠ 0), ebind_ok]
  dsimp only
  split
  · next h =>
    rw [cdiv_ok _ _ (ne_of_gt h), ebind_ok]
    cases hl : (histm symbol).getLast? with
    | none => simp only [hl]; rw [epure_bind]; split <;> rfl
    | some lastEntry =>
      simp only [hl]
      split
      · next hp => rw [cdiv_ok _ _ (ne_of_gt hp), ebind_ok]; split <;> rfl
      · rw [epure_bind]; split <;> rfl
  · rw [epure_bind]
    cases hl : (histm symbol).getLast? with
    | none => simp only [hl]; rw [epure_bind]; split <;> rfl
    | some lastEntry =>
      simp only [hl]
      split
      · next hp => rw [cdiv_ok _ _ (ne_of_gt hp), ebind_ok]; split <;> rfl
      · rw [epure_bind]; split <;> rfl

theorem checkLiquidationRisk_eq (symbol : String) (deriv_data : DerivData) :
    checkLiquidationRisk symbol deriv_data = .ok (liquidationRiskRun symbol deriv_data) := by
  unfold checkLiquidationRisk liquidationRiskRun
  dsimp only
  split
  · next hp => rw [cdiv_ok _ _ (ne_of_gt hp), ebind_ok]; split <;> rfl
  · rfl

theorem checkMomentumDivergence_eq (symbol : String) (spot_data : SpotData)
    (deriv_data : DerivData) (histm : HistMap) :
    checkMomentumDivergence symbol spot_data deriv_data histm
      = .ok (momentumDivergenceRun symbol spot_data deriv_data (histm symbol)) := by
  unfold checkMomentumDivergence momentumDivergenceRun oiChangeOf
  dsimp only
  cases h : (histm symbol).getLast? with
  | none =>
    simp only [h]
    rw [epure_bind]
    split
    · rfl
    · split <;> rfl
  | some lastEntry =>
    simp only [h]
    split
    · next hp =>
      rw [cdiv_ok _ _ (ne_of_gt hp), ebind_ok]
      split
      · rfl
      · split <;> rfl
    · rw [epure_bind]
      split
      · rfl
      · split <;> rfl

theorem checkBtcDominanceChange_eq (spot_snapshot : List (String × SpotData))
    (histm : HistMap) :
    checkBtcDominanceChange spot_snapshot histm
      = .ok ((btcDominanceRun spot_snapshot (histm "BTC")).1,
             setH histm "BTC" (btcDominanceRun spot_snapshot (histm "BTC")).2) := by
  unfold checkBtcDominanceChange btcDominanceRun
  dsimp only
  cases h : alookup spot_snapshot "BTC" with
  | none => rw [setH_self]; rfl
  | some btcData =>
    simp only [h]
    split
    · rw [setH_self]; rfl
    · next ht =>
      rw [cdiv_ok _ _ ht, ebind_ok]
      cases hl : (histm "BTC").getLast? with
      | none => simp only [hl]; rfl
      | some lastEntry =>
        simp only [hl]
        split
        · rw [setH_self]; rfl
        · rfl

theorem symbolStep_eq (spot_snapshot : List (String × SpotData)) (symbol : String)
    (spot_data : SpotData) (deriv_data : DerivData) (histm : HistMap) :
    symbolStep spot_snapshot symbol spot_data deriv_data histm
      = .ok ((symbolStepRun spot_snapshot symbol spot_data deriv_data (histm symbol)).1,
             (symbolStepRun spot_snapshot symbol spot_data deriv_data (histm symbol)).2.1,
             setH histm symbol
               (symbolStepRun spot_snapshot symbol spot_data deriv_data (histm symbol)).2.2) := by
  unfold symbolStep symbolStepRun
  simp only [checkOiSurge_eq, checkVolatilitySpike_eq, checkVolumeSurge_eq,
    checkLongShortRatio_eq, checkPriceOiSurge_eq, checkPriceDropVolume_eq,
    checkLiquidationRisk_eq, checkMomentumDivergence_eq, checkBtcDominanceChange_eq,
    ebind_ok, setH_same, setH_setH]
  split
  · next hc =>
    obtain ⟨hB, -⟩ := hc
    subst hB
    simp only [setH_same, setH_setH]
    rfl
  · rfl

theorem analyzeLoop_eq (spot : List (String × SpotData))
    (deriv : List (String × DerivData)) (syms : List String)
    (signals : List Signal) (rationale : List String) (histm : HistMap) :
    analyzeLoop spot deriv syms signals rationale histm
      = .ok (analyzeLoopRun spot deriv syms signals rationale histm) := by
  induction syms generalizing signals rationale histm with
  | nil => rfl
  | cons symbol rest ih =>
    unfold analyzeLoop analyzeLoopRun
    cases hs : alookup spot symbol with
    | none => exact ih signals rationale histm
    | some spot_data =>
      cases hd : alookup deriv symbol with
      | none => exact ih signals rationale histm
      | some deriv_data =>
        dsimp only
        rw [symbolStep_eq]
        exact ih _ _ _

theorem analyze_eq (spot : List (String × SpotData))
    (deriv : List (String × DerivData)) (histm : HistMap) (timestamp : String) :
    analyze spot deriv histm timestamp = .ok (analyzeRun spot deriv histm timestamp) := by
  unfold analyze analyzeRun
  rw [analyzeLoop_eq]

/-! ## Shape of each rule's possible signals -/

theorem checkFundingOverheated_some {symbol : String} {deriv_data : DerivData}
    {s : Signal} (h : checkFundingOverheated symbol deriv_data = some s) :
    ∃ level direction, s = fundingOverheatedSig symbol level direction := by
  unfold checkFundingOverheated at h
  dsimp only at h
  split at h
  · exact ⟨_, _, (Option.some_injective _ h).symm⟩
  · exact absurd h (by simp)

theorem oiSurgeRun_some {symbol : String} {deriv_data : DerivData}
    {hist : List Entry} {s : Signal}
    (h : (oiSurgeRun symbol deriv_data hist).1 = some s) :
    ∃ level, s = oiSurgeSig symbol level := by
  unfold oiSurgeRun at h
  split at h
  · dsimp only at h
    split at h
    · split at h
      · exact ⟨_, (Option.some_injective _ h).symm⟩
      · split at h
        · exact ⟨_, (Option.some_injective _ h).symm⟩
        · exact absurd h (by simp)
    · exact absurd h (by simp)
  · exact absurd h (by simp)

theorem volatilitySpikeRun_some {symbol : String} {spot_data : SpotData}
    {s : Signal} (h : volatilitySpikeRun symbol spot_data = some s) :
    ∃ level direction, s = volatilitySpikeSig symbol level direction := by
  unfold volatilitySpikeRun at h
  dsimp only at h
  split at h
  · exact ⟨_, _, (Option.some_injective _ h).symm⟩
  · split at h
    · exact ⟨_, _, (Option.some_injective _ h).symm⟩
    · exact absurd h (by simp)

theorem volumeSurgeSignalRun_some {symbol : String} {volume_ratio : ℚ}
    {hist : List Entry} {s : Signal}
    (h : volumeSurgeSignalRun symbol volume_ratio hist = some s) :
    s = volumeSurgeSig symbol := by
  unfold volumeSurgeSignalRun at h
  split at h
  · dsimp only at h
    split at h
    · split at h
      · split at h
        · split at h
          · exact (Option.some_injective _ h).symm
          · exact absurd h (by simp)
        · exact absurd h (by simp)
      · split at h
        · split at h
          · exact (Option.some_injective _ h).symm
          · exact absurd h (by simp)
        · exact absurd h (by simp)
    · exact absurd h (by simp)
  · exact absurd h (by simp)

theorem volumeSurgeRun_some {symbol : String} {spot_data : SpotData}
    {hist : List Entry} {s : Signal}
    (h : (volumeSurgeRun symbol spot_data hist).1 = some s) :
    s = volumeSurgeSig symbol := by
  unfold volumeSurgeRun at h
  dsimp only at h
  split at h
  · next s' heq =>
    have hs : s' = s := Option.some_injective _ h
    subst hs
    exact volumeSurgeSignalRun_some heq
  · exact absurd h (by simp)

theorem longShortRatioRun_some {symbol : String} {deriv_data : DerivData}
    {s : Signal} (h : longShortRatioRun symbol deriv_data = some s) :
    ∃ level direction, s = longShortSig symbol level direction := by
  unfold longShortRatioRun at h
  dsimp only at h
  split at h
  · exact ⟨_, _, (Option.some_injective _ h).symm⟩
  · split at h
    · exact ⟨_, _, (Option.some_injective _ h).symm⟩
    · split at h
      · exact ⟨_, _, (Option.some_injective _ h).symm⟩
      · split at h
        · exact ⟨_, _, (Option.some_injective _ h).symm⟩
        · exact absurd h (by simp)

theorem priceOiSurgeRun_some {symbol : String} {spot_data : SpotData}
    {deriv_data : DerivData} {hist : List Entry} {s : Signal}
    (h : priceOiSurgeRun symbol spot_data deriv_data hist = some s) :
    s = priceOiSurgeSig symbol := by
  unfold priceOiSurgeRun at h
  dsimp only at h
  split at h
  · exact (Option.some_injective _ h).symm
  · exact absurd h (by simp)

theorem priceDropVolumeRun_some {symbol : String} {spot_data : SpotData}
    {hist : List Entry} {s : Signal}
    (h : priceDropVolumeRun symbol spot_data hist = some s) :
    s = panicSellingSig symbol := by
  unfold priceDropVolumeRun at h
  dsimp only at h
  split at h
  · exact (Option.some_injective _ h).symm
  · exact absurd h (by simp)

theorem checkExtremeFunding_some {symbol : String} {deriv_data : DerivData}
    {s : Signal} (h : checkExtremeFunding symbol deriv_data = some s) :
    ∃ direction, s = extremeFundingSig symbol direction := by
  unfold checkExtremeFunding at h
  dsimp only at h
  split at h
  · exact ⟨_, (Option.some_injective _ h).symm⟩
  · exact absurd h (by simp)

theorem liquidationRiskRun_some {symbol : String} {deriv_data : DerivData}
    {s : Signal} (h : liquidationRiskRun symbol deriv_data = some s) :
    s = liquidationRiskSig symbol := by
  unfold liquidationRiskRun at h
  dsimp only at h
  split at h
  · split at h
    · exact (Option.some_injective _ h).symm
    · exact absurd h (by simp)
  · exact absurd h (by simp)

theorem momentumDivergenceRun_some {symbol : String} {spot_data : SpotData}
    {deriv_data : DerivData} {hist : List Entry} {s : Signal}
    (h : momentumDivergenceRun symbol spot_data deriv_data hist = some s) :
    s = momentumDivergenceSig symbol := by
  unfold momentumDivergenceRun at h
  dsimp only at h
  split at h
  · exact (Option.some_injective _ h).symm
  · split at h
    · exact (Option.some_injective _ h).symm
    · exact absurd h (by simp)

theorem btcDominanceRun_some {spot_snapshot : List (String × SpotData)}
    {hist : List Entry} {s : Signal}
    (h : (btcDominanceRun spot_snapshot hist).1 = some s) :
    ∃ direction, s = btcDominanceSig direction := by
  unfold btcDominanceRun at h
  split at h
  · exact absurd h (by simp)
  · dsimp only at h
    split at h
    · exact absurd h (by simp)
    · split at h
      · split at h
        · exact ⟨_, (Option.some_injective _ h).symm⟩
        · exact absurd h (by simp)
      · exact absurd h (by simp)

/-! ## Regime classification -/

theorem determineRegime_spec (signals : List Signal) (rationale : List String) :
    ((determineRegime signals rationale).label = "risk_off"
      ↔ 1 ≤ (signals.filter (fun s => s.level = "critical")).length
        ∨ 3 ≤ (signals.filter (fun s => s.level = "warn")).length)
    ∧ ((signals.filter (fun s => s.level = "critical")).length = 0 →
        ((signals.filter (fun s => s.level = "warn")).length = 1
          ∨ (signals.filter (fun s => s.level = "warn")).length = 2) →
        (determineRegime signals rationale).label = "neutral")
    ∧ ((determineRegime signals rationale).label = "risk_on"
      ↔ signals ≠ []
        ∧ (signals.filter (fun s => s.level = "critical")).length = 0
        ∧ (signals.filter (fun s => s.level = "warn")).length = 0)
    ∧ (signals = [] → determineRegime signals rationale
        = { label := "neutral", rationale := ["No significant signals detected"] }) := by
  unfold determineRegime
  split
  · next he =>
    subst he
    refine ⟨by simp, by simp, by simp, fun _ => rfl⟩
  · next he =>
    dsimp only
    split_ifs with h1 h2 h3
    · refine ⟨iff_of_true rfl (Or.inl (by omega)), fun hc _ => by omega,
        iff_of_false (by decide) (fun hh => by omega), fun hh => absurd hh he⟩
    · refine ⟨iff_of_true rfl h2, fun hc hw => by rcases h2 with h2 | h2 <;> omega,
        iff_of_false (by decide) (fun hh => by rcases h2 with h2 | h2 <;> omega),
        fun hh => absurd hh he⟩
    · refine ⟨iff_of_false (by decide) h2, fun _ _ => rfl,
        iff_of_false (by decide) (fun hh => by omega), fun hh => absurd hh he⟩
    · refine ⟨iff_of_false (by decide) h2, fun hc hw => by omega,
        iff_of_true rfl ⟨he, by omega, by omega⟩, fun hh => absurd hh he⟩

/-- Destructuring an `analyze` success through `analyze_eq`. -/
theorem analyze_ok_inv {spot : List (String × SpotData)}
    {deriv : List (String × DerivData)} {histm : HistMap} {ts : String}
    {res : AnalyzeResult} {hF : HistMap}
    (h : analyze spot deriv histm ts = .ok (res, hF)) :
    res = (analyzeRun spot deriv histm ts).1 ∧ hF = (analyzeRun spot deriv histm ts).2 := by
  rw [analyze_eq] at h
  injection h with h2
  exact ⟨(congrArg Prod.fst h2).symm, (congrArg Prod.snd h2).symm⟩

/-! ## Claim C9 -/

/-- C9: for every pair of mapping inputs (with numeric or absent fields,
including zero `market_cap`, zero `open_interest_usd` and zero total market
cap), `analyze` returns normally: every division in the rule set is guarded,
so no rule can raise a division-by-zero or other arithmetic error.  (The one
fatal condition the spec allows — non-mapping inputs — is a type error and
cannot arise in the typed embedding.) -/
theorem analyze_never_raises (spot : List (String × SpotData))
    (deriv : List (String × DerivData)) (histm : HistMap) (ts : String) :
    ∃ out, analyze spot deriv histm ts = .ok out :=
  ⟨_, analyze_eq spot deriv histm ts⟩

/-! ## Claim C1 -/

/-- C1: for every result of `analyze`, the regime label is a pure function of
signal level counts: `"risk_off"` iff at least one critical or at least three
warn signals; `"neutral"` when zero critical and one or two warn; `"risk_on"`
iff the signal list is non-empty with zero critical and zero warn; and an
empty signal list yields `"neutral"` with the single no-signals rationale. -/
theorem regime_label_spec (spot : List (String × SpotData))
    (deriv : List (String × DerivData)) (histm : HistMap) (ts : String)
    (res : AnalyzeResult) (hF : HistMap)
    (h : analyze spot deriv histm ts = .ok (res, hF)) :
    (res.regime.label = "risk_off"
      ↔ 1 ≤ (res.signals.filter (fun s => s.level = "critical")).length
        ∨ 3 ≤ (res.signals.filter (fun s => s.level = "warn")).length)
    ∧ ((res.signals.filter (fun s => s.level = "critical")).length = 0 →
        ((res.signals.filter (fun s => s.level = "warn")).length = 1
          ∨ (res.signals.filter (fun s => s.level = "warn")).length = 2) →
        res.regime.label = "neutral")
    ∧ (res.regime.label = "risk_on"
      ↔ res.signals ≠ []
        ∧ (res.signals.filter (fun s => s.level = "critical")).length = 0
        ∧ (res.signals.filter (fun s => s.level = "warn")).length = 0)
    ∧ (res.signals = [] → res.regime
        = { label := "neutral", rationale := ["No significant signals detected"] }) := by
  obtain ⟨hres, -⟩ := analyze_ok_inv h
  subst hres
  exact determineRegime_spec _ _

theorem emptyHist_apply (s : String) : emptyHist s = [] := rfl

set_option maxHeartbeats 2000000 in
/-- Evaluation of `analyze` on the extreme-conditions pair. -/
theorem exEval : analyze exSpot exDeriv emptyHist "t" = .ok (exRes, exHistAfter) := by
  rw [analyze_eq]
  norm_num [analyzeRun, analyzeLoopRun, analyzedSymbols, symbolStepRun, alookup,
    oiSurgeRun, oiSurgeStore, volatilitySpikeRun, volumeSurgeRun, volumeSurgeSignalRun,
    volumeRatioOf, longShortRatioRun, priceOiSurgeRun, priceDropVolumeRun, oiChangeOf,
    liquidationRiskRun, momentumDivergenceRun, btcDominanceRun, checkFundingOverheated,
    checkExtremeFunding, addSig, determineRegime, updLast, exSpot, exDeriv, exRes, exHistAfter,
    funding_rate_overheated, funding_rate_extreme, oi_increase_critical, oi_increase_warning,
    volatility_extreme, volatility_high, volume_surge_zscore, price_oi_surge_price,
    price_oi_surge_oi, price_drop_volume_price, price_drop_volume_volume,
    long_short_ratio_extreme, long_short_ratio_warning, liquidation_risk_ratio,
    fundingOverheatedSig, oiSurgeSig, volatilitySpikeSig, volumeSurgeSig, longShortSig,
    priceOiSurgeSig, panicSellingSig, extremeFundingSig, liquidationRiskSig,
    momentumDivergenceSig, btcDominanceSig, emptyHist_apply, abs_of_pos, abs_of_neg,
    abs_of_nonneg, abs_of_nonpos]
  decide

/-- Witness for C1 at the extreme-conditions scenario. -/
theorem regime_label_spec_witness :
    analyze exSpot exDeriv emptyHist "t" = .ok (exRes, exHistAfter)
    ∧ ((exRes.regime.label = "risk_off"
        ↔ 1 ≤ (exRes.signals.filter (fun s => s.level = "critical")).length
          ∨ 3 ≤ (exRes.signals.filter (fun s => s.level = "warn")).length)
      ∧ ((exRes.signals.filter (fun s => s.level = "critical")).length = 0 →
          ((exRes.signals.filter (fun s => s.level = "warn")).length = 1
            ∨ (exRes.signals.filter (fun s => s.level = "warn")).length = 2) →
          exRes.regime.label = "neutral")
      ∧ (exRes.regime.label = "risk_on"
        ↔ exRes.signals ≠ []
          ∧ (exRes.signals.filter (fun s => s.level = "critical")).length = 0
          ∧ (exRes.signals.filter (fun s => s.level = "warn")).length = 0)
      ∧ (exRes.signals = [] → exRes.regime
          = { label := "neutral", rationale := ["No significant signals detected"] })) :=
  ⟨exEval, regime_label_spec exSpot exDeriv emptyHist "t" exRes exHistAfter exEval⟩

/-! ## Claim C2 -/

set_option maxHeartbeats 2000000 in
/-- C2 (refuting evaluation): on a fresh engine, three `analyze` calls with
`open_interest_usd` 100, 130, 130 show that rule 2 never writes the observed
value back once a positive baseline exists: after the second call the stored
baseline is still 100 (not 130), and the third call — with open interest
unchanged since the second — again emits a critical OI-surge signal computed
against the stale first-call baseline. -/
theorem oiSurge_stale_baseline :
    analyze cSpot (cDeriv 100) emptyHist "t1"
      = .ok ({ signals := []
               regime := { label := "neutral"
                           rationale := ["No significant signals detected"] }
               timestamp := "t1" }, cH)
    ∧ analyze cSpot (cDeriv 130) cH "t2"
      = .ok ({ signals := [oiSurgeSig "BTC" "critical"]
               regime := { label := "risk_off"
                           rationale := ["BTC: Open interest surge"] }
               timestamp := "t2" }, cH)
    ∧ analyze cSpot (cDeriv 130) cH "t3"
      = .ok ({ signals := [oiSurgeSig "BTC" "critical"]
               regime := { label := "risk_off"
                           rationale := ["BTC: Open interest surge"] }
               timestamp := "t3" }, cH)
    ∧ cH "BTC" = [{ open_interest_usd := some 100, volume_ratio := some (1 / 10) }] := by
  refine ⟨?_, ?_, ?_, by rw [cH, setH_same]⟩ <;>
    (rw [analyze_eq]
     norm_num [analyzeRun, analyzeLoopRun, analyzedSymbols, symbolStepRun, alookup,
       oiSurgeRun, oiSurgeStore, volatilitySpikeRun, volumeSurgeRun, volumeSurgeSignalRun,
       volumeRatioOf, longShortRatioRun, priceOiSurgeRun, priceDropVolumeRun, oiChangeOf,
       liquidationRiskRun, momentumDivergenceRun, btcDominanceRun, checkFundingOverheated,
       checkExtremeFunding, addSig, determineRegime, updLast, cSpot, cDeriv, cH,
       funding_rate_overheated, funding_rate_extreme, oi_increase_critical, oi_increase_warning,
       volatility_extreme, volatility_high, volume_surge_zscore, price_oi_surge_price,
       price_oi_surge_oi, price_drop_volume_price, price_drop_volume_volume,
       long_short_ratio_extreme, long_short_ratio_warning, liquidation_risk_ratio,
       fundingOverheatedSig, oiSurgeSig, volatilitySpikeSig, volumeSurgeSig, longShortSig,
       priceOiSurgeSig, panicSellingSig, extremeFundingSig, liquidationRiskSig,
       momentumDivergenceSig, btcDominanceSig, emptyHist_apply, abs_of_pos, abs_of_neg,
       abs_of_nonneg, abs_of_nonpos, setH_same, setH_setH]
     try decide)

/-! ## Claim C6 -/

/-- C6 (counterexample): a missing `long_short_ratio` is NOT read as zero by
rule 5: on a record without the field the rule emits nothing, while on the
same record with the field explicitly 0 it emits a short-bias warn signal. -/
theorem missing_lsr_not_zero :
    checkLongShortRatio "BTC" {} ≠ checkLongShortRatio "BTC" { long_short_ratio := some 0 } := by
  rw [checkLongShortRatio_eq, checkLongShortRatio_eq]
  norm_num [longShortRatioRun, long_short_ratio_extreme, long_short_ratio_warning,
    longShortSig]
  decide

/-- C6 (amended): absent optional fields are read with rule-specific
defaults, not uniformly zero: `market_cap` is read as 1 by the volume-ratio
computation of rules 4 and 7, `long_short_ratio` is read as 1.0 by rule 5,
`open_interest_usd` falls back to the `open_interest` value in rule 2, a
missing `funding_rate_24h` is read as 0 by rule 1, and no rule raises on a
missing optional field (`analyze` always returns normally). -/
theorem missing_fields_defaults (symbol : String) (sd : SpotData) (dd : DerivData)
    (histm : HistMap)
    (h4 : sd.market_cap = none) (h5 : dd.long_short_ratio = none)
    (h2 : dd.open_interest_usd = none) (h1 : dd.funding_rate_24h = none) :
    checkVolumeSurge symbol sd histm
      = checkVolumeSurge symbol { sd with market_cap := some 1 } histm
    ∧ checkPriceDropVolume symbol sd histm
      = checkPriceDropVolume symbol { sd with market_cap := some 1 } histm
    ∧ checkLongShortRatio symbol dd
      = checkLongShortRatio symbol { dd with long_short_ratio := some 1 }
    ∧ checkOiSurge symbol dd histm
      = checkOiSurge symbol { dd with open_interest_usd := some (dd.open_interest.getD 0) } histm
    ∧ checkFundingOverheated symbol dd
      = checkFundingOverheated symbol { dd with funding_rate_24h := some 0 }
    ∧ (∀ spot deriv ts, ∃ out, analyze spot deriv histm ts = .ok out) := by
  have hvr : volumeRatioOf sd = volumeRatioOf { sd with market_cap := some 1 } := by
    simp [volumeRatioOf, h4]
  refine ⟨?_, ?_, ?_, ?_, ?_, fun spot deriv ts => ⟨_, analyze_eq spot deriv histm ts⟩⟩
  · rw [checkVolumeSurge_eq, checkVolumeSurge_eq]
    unfold volumeSurgeRun
    rw [hvr]
  · rw [checkPriceDropVolume_eq, checkPriceDropVolume_eq]
    unfold priceDropVolumeRun
    rw [hvr]
  · rw [checkLongShortRatio_eq, checkLongShortRatio_eq]
    unfold longShortRatioRun
    norm_num [h5]
  · rw [checkOiSurge_eq, checkOiSurge_eq]
    unfold oiSurgeRun
    simp [h2]
  · unfold checkFundingOverheated
    simp [h1]

/-- Witness for the amended C6 at a record with every optional field absent. -/
theorem missing_fields_defaults_witness :
    (({} : SpotData).market_cap = none ∧ ({} : DerivData).long_short_ratio = none
      ∧ ({} : DerivData).open_interest_usd = none ∧ ({} : DerivData).funding_rate_24h = none)
    ∧ (checkVolumeSurge "BTC" {} emptyHist
        = checkVolumeSurge "BTC" { market_cap := some 1 } emptyHist
      ∧ checkPriceDropVolume "BTC" {} emptyHist
        = checkPriceDropVolume "BTC" { market_cap := some 1 } emptyHist
      ∧ checkLongShortRatio "BTC" {}
        = checkLongShortRatio "BTC" { long_short_ratio := some 1 }
      ∧ checkOiSurge "BTC" {} emptyHist
        = checkOiSurge "BTC"
            { open_interest_usd := some (({} : DerivData).open_interest.getD 0) } emptyHist
      ∧ checkFundingOverheated "BTC" {}
        = checkFundingOverheated "BTC" { funding_rate_24h := some 0 }
      ∧ (∀ spot deriv ts, ∃ out, analyze spot deriv emptyHist ts = .ok out)) :=
  ⟨⟨rfl, rfl, rfl, rfl⟩,
   missing_fields_defaults "BTC" {} {} emptyHist rfl rfl rfl rfl⟩

/-! ## Claim C8 -/

/-- Inserting into a snapshot dictionary never produces an empty mapping. -/
theorem dictInsert_ne_nil {α : Type} (l : List (String × α)) (k : String) (v : α) :
    dictInsert l k v ≠ [] := by
  unfold dictInsert
  split
  · next hs =>
    cases l with
    | nil => simp [alookup] at hs
    | cons p rest => simp
  · simp

/-- The spot fold of the mock provider keeps a non-empty accumulator. -/
theorem mockSpot_foldl_ne_nil (rnd : String → MockRand) (l : List String) :
    ∀ acc : List (String × SpotData), acc ≠ [] →
      l.foldl (fun result symbol =>
        let symbol_upper := pyUpper symbol
        if (alookup BASE_PRICES symbol_upper).isSome then
          dictInsert result symbol_upper (mockSpotData symbol_upper (rnd symbol_upper))
        else result) acc ≠ [] := by
  induction l with
  | nil => intro acc h; exact h
  | cons s rest ih =>
    intro acc h
    simp only [List.foldl_cons]
    split
    · exact ih _ (dictInsert_ne_nil _ _ _)
    · exact ih _ h

/-- The derivatives fold of the mock provider keeps a non-empty accumulator. -/
theorem mockDeriv_foldl_ne_nil (rnd : String → MockRand) (l : List String) :
    ∀ acc : List (String × DerivData), acc ≠ [] →
      l.foldl (fun result symbol =>
        let symbol_upper := pyUpper symbol
        if (alookup BASE_PRICES symbol_upper).isSome then
          dictInsert result symbol_upper (mockDerivData symbol_upper (rnd symbol_upper))
        else result) acc ≠ [] := by
  induction l with
  | nil => intro acc h; exact h
  | cons s rest ih =>
    intro acc h
    simp only [List.foldl_cons]
    split
    · exact ih _ (dictInsert_ne_nil _ _ _)
    · exact ih _ h

/-- The mock spot snapshot is non-empty whenever a known symbol is requested. -/
theorem mockGetSpotSnapshot_ne_nil (symbols : List String) (rnd : String → MockRand)
    (h : "BTC" ∈ symbols.map pyUpper) :
    mockGetSpotSnapshot symbols rnd ≠ [] := by
  unfold mockGetSpotSnapshot
  induction symbols with
  | nil => simp at h
  | cons s rest ih =>
    simp only [List.map_cons, List.mem_cons] at h
    simp only [List.foldl_cons]
    rcases h with h | h
    · rw [← h]
      split
      · exact mockSpot_foldl_ne_nil rnd rest _ (dictInsert_ne_nil _ _ _)
      · next hc => exact absurd (by decide) hc
    · split
      · exact mockSpot_foldl_ne_nil rnd rest _ (dictInsert_ne_nil _ _ _)
      · exact ih h

/-- The mock derivatives snapshot is non-empty whenever a known symbol is
requested. -/
theorem mockGetDerivativesSnapshot_ne_nil (symbols : List String)
    (rnd : String → MockRand) (h : "BTC" ∈ symbols.map pyUpper) :
    mockGetDerivativesSnapshot symbols rnd ≠ [] := by
  unfold mockGetDerivativesSnapshot
  induction symbols with
  | nil => simp at h
  | cons s rest ih =>
    simp only [List.map_cons, List.mem_cons] at h
    simp only [List.foldl_cons]
    rcases h with h | h
    · rw [← h]
      split
      · exact mockDeriv_foldl_ne_nil rnd rest _ (dictInsert_ne_nil _ _ _)
      · next hc => exact absurd (by decide) hc
    · split
      · exact mockDeriv_foldl_ne_nil rnd rest _ (dictInsert_ne_nil _ _ _)
      · exact ih h

/-- C8: every unrecognized provider selection key resolves to the
deterministic (mock) provider without raising; that provider reports
`is_available() = true` and returns a non-empty spot snapshot for the known
symbol `"BTC"`. -/
theorem unknown_provider_key_resolves_to_mock (key : String)
    (h : pyLower key ≠ "mock" ∧ pyLower key ≠ "public" ∧ pyLower key ≠ "real") :
    get_market_provider key = ProviderKind.mock
    ∧ mockIsAvailable = true
    ∧ ∀ rnd, mockGetSpotSnapshot ["BTC"] rnd ≠ [] := by
  refine ⟨?_, rfl, fun rnd => mockGetSpotSnapshot_ne_nil _ _ (by decide)⟩
  unfold get_market_provider
  simp [h.1, h.2.1, h.2.2]

/-- Witness for C8 at the selection key `"nonexistent"`. -/
theorem unknown_provider_key_witness :
    (pyLower "nonexistent" ≠ "mock" ∧ pyLower "nonexistent" ≠ "public"
      ∧ pyLower "nonexistent" ≠ "real")
    ∧ (get_market_provider "nonexistent" = ProviderKind.mock
      ∧ mockIsAvailable = true
      ∧ ∀ rnd, mockGetSpotSnapshot ["BTC"] rnd ≠ []) :=
  ⟨by decide, unknown_provider_key_resolves_to_mock "nonexistent" (by decide)⟩

/-! ## Claim C7 -/

/-- If every per-symbol Binance fetch fails, the derivatives fold collects
nothing. -/
theorem publicDeriv_foldl_nil (env : ProviderEnv)
    (hfail : ∀ sym, env.derivFetch sym = none) (l : List String) :
    ∀ acc : List (String × DerivData),
      l.foldl (fun result symbol =>
        let symbol_upper := pyUpper symbol
        if (alookup SYMBOL_TO_BINANCE_SYMBOL symbol_upper).isSome then
          match env.derivFetch symbol_upper with
          | some data => dictInsert result symbol_upper data
          | none => result
        else result) acc = acc := by
  induction l with
  | nil => intro acc; rfl
  | cons s rest ih =>
    intro acc
    rw [List.foldl_cons]
    have hhead : (if (alookup SYMBOL_TO_BINANCE_SYMBOL (pyUpper s)).isSome then
          match env.derivFetch (pyUpper s) with
          | some data => dictInsert acc (pyUpper s) data
          | none => acc
        else acc) = acc := by
      rw [hfail]
      split <;> rfl
    show List.foldl _ (if (alookup SYMBOL_TO_BINANCE_SYMBOL (pyUpper s)).isSome then
          match env.derivFetch (pyUpper s) with
          | some data => dictInsert acc (pyUpper s) data
          | none => acc
        else acc) rest = acc
    rw [hhead]
    exact ih acc

/-- C7: if every per-symbol fetch of the live provider's derivatives source
fails, `get_derivatives_snapshot` raises nothing and returns exactly the
deterministic fallback provider's mapping, which is non-empty whenever a
known symbol such as `"BTC"` was requested; and the spot result depends only
on the spot fetch outcome, so a derivatives failure cannot affect a
separately successful spot fetch. -/
theorem derivatives_fallback (symbols : List String) (env : ProviderEnv)
    (rnd : String → MockRand)
    (hfail : ∀ sym, env.derivFetch sym = none) :
    publicGetDerivativesSnapshot symbols env rnd = mockGetDerivativesSnapshot symbols rnd
    ∧ ("BTC" ∈ symbols.map pyUpper → mockGetDerivativesSnapshot symbols rnd ≠ [])
    ∧ (∀ env2 : ProviderEnv, env2.spotFetch = env.spotFetch →
        publicGetSpotSnapshot symbols env2 rnd = publicGetSpotSnapshot symbols env rnd) := by
  refine ⟨?_, mockGetDerivativesSnapshot_ne_nil symbols rnd, ?_⟩
  · unfold publicGetDerivativesSnapshot
    rw [publicDeriv_foldl_nil env hfail symbols []]
    rfl
  · intro env2 hsp
    unfold publicGetSpotSnapshot
    rw [hsp]

/-- Witness for C7: symbols `["BTC", "ETH"]`, an environment whose
derivatives fetch always fails, and fixed random draws. -/
theorem derivatives_fallback_witness :
    (∀ sym, (⟨none, fun _ => none⟩ : ProviderEnv).derivFetch sym = none)
    ∧ (publicGetDerivativesSnapshot ["BTC", "ETH"] ⟨none, fun _ => none⟩ (fun _ => {})
        = mockGetDerivativesSnapshot ["BTC", "ETH"] (fun _ => {})
      ∧ ("BTC" ∈ (["BTC", "ETH"].map pyUpper) →
          mockGetDerivativesSnapshot ["BTC", "ETH"] (fun _ => {}) ≠ [])
      ∧ (∀ env2 : ProviderEnv, env2.spotFetch = (⟨none, fun _ => none⟩ : ProviderEnv).spotFetch →
          publicGetSpotSnapshot ["BTC", "ETH"] env2 (fun _ => {})
            = publicGetSpotSnapshot ["BTC", "ETH"] ⟨none, fun _ => none⟩ (fun _ => {}))) :=
  ⟨fun _ => rfl,
   derivatives_fallback ["BTC", "ETH"] ⟨none, fun _ => none⟩ (fun _ => {}) (fun _ => rfl)⟩

/-! ## Claim C4: cold-engine behaviour -/

/-- Rule 2 on an empty history only seeds it. -/
theorem oiSurgeRun_nil (symbol : String) (deriv_data : DerivData) :
    oiSurgeRun symbol deriv_data []
      = (none,
         [{ open_interest_usd :=
              some (deriv_data.open_interest_usd.getD (deriv_data.open_interest.getD 0)) }]) := rfl

/-- Rule 4's z-score test never fires on a one-entry history without a
stored `volume_ratio`. -/
theorem volumeSurgeSignalRun_single (symbol : String) (vr : ℚ) (a c : Option ℚ) :
    volumeSurgeSignalRun symbol vr
      [{ open_interest_usd := a, volume_ratio := none, btc_dominance := c }] = none := by
  unfold volumeSurgeSignalRun
  norm_num [div_one, volume_surge_zscore]

/-- Rule 4 on a freshly seeded history only stores the volume ratio. -/
theorem volumeSurgeRun_single (symbol : String) (spot_data : SpotData) (a c : Option ℚ) :
    volumeSurgeRun symbol spot_data
        [{ open_interest_usd := a, volume_ratio := none, btc_dominance := c }]
      = (none, [{ open_interest_usd := a,
                  volume_ratio := some (volumeRatioOf spot_data),
                  btc_dominance := c }]) := by
  unfold volumeSurgeRun
  dsimp only
  rw [volumeSurgeSignalRun_single]
  rfl

/-- Rule 7 never fires when the stored volume ratio equals the current one. -/
theorem priceDropVolumeRun_fresh (symbol : String) (spot_data : SpotData)
    (a c : Option ℚ) :
    priceDropVolumeRun symbol spot_data
      [{ open_interest_usd := a, volume_ratio := some (volumeRatioOf spot_data),
         btc_dominance := c }] = none := by
  unfold priceDropVolumeRun
  dsimp only
  simp only [List.getLast?_singleton, Option.getD_some]
  split
  · next hp =>
    norm_num
    intro
    norm_num [price_drop_volume_volume]
  · norm_num
    intro
    norm_num [price_drop_volume_volume]

/-- Rule 11 never fires when the last entry has no stored dominance. -/
theorem btcDominanceRun_fresh (spot_snapshot : List (String × SpotData))
    (a b : Option ℚ) :
    (btcDominanceRun spot_snapshot
      [{ open_interest_usd := a, volume_ratio := b, btc_dominance := none }]).1 = none := by
  unfold btcDominanceRun
  cases alookup spot_snapshot "BTC" with
  | none => rfl
  | some btcData =>
    dsimp only
    split
    · rfl
    · simp only [List.getLast?_singleton, Option.getD_none]
      norm_num

/-- Origin of an accumulated signal. -/
theorem mem_addSig {acc : List Signal × List String} {sig : Option Signal}
    {r : String} {s : Signal} (h : s ∈ (addSig acc sig r).1) :
    s ∈ acc.1 ∨ sig = some s := by
  unfold addSig at h
  cases sig with
  | none => exact Or.inl h
  | some x =>
    dsimp only at h
    rcases List.mem_append.mp h with h | h
    · exact Or.inl h
    · simp only [List.mem_singleton] at h
      exact Or.inr (by rw [h])

/-- Each signal a symbol step produces comes from one of the eleven rules,
evaluated at the history that rule actually saw. -/
theorem symbolStepRun_mem {spot_snapshot : List (String × SpotData)}
    {symbol : String} {spot_data : SpotData} {deriv_data : DerivData}
    {hist : List Entry} {s : Signal}
    (h : s ∈ (symbolStepRun spot_snapshot symbol spot_data deriv_data hist).1) :
    checkFundingOverheated symbol deriv_data = some s
    ∨ (oiSurgeRun symbol deriv_data hist).1 = some s
    ∨ volatilitySpikeRun symbol spot_data = some s
    ∨ (volumeSurgeRun symbol spot_data (oiSurgeRun symbol deriv_data hist).2).1 = some s
    ∨ longShortRatioRun symbol deriv_data = some s
    ∨ priceOiSurgeRun symbol spot_data deriv_data
        (volumeSurgeRun symbol spot_data (oiSurgeRun symbol deriv_data hist).2).2 = some s
    ∨ priceDropVolumeRun symbol spot_data
        (volumeSurgeRun symbol spot_data (oiSurgeRun symbol deriv_data hist).2).2 = some s
    ∨ checkExtremeFunding symbol deriv_data = some s
    ∨ liquidationRiskRun symbol deriv_data = some s
    ∨ momentumDivergenceRun symbol spot_data deriv_data
        (volumeSurgeRun symbol spot_data (oiSurgeRun symbol deriv_data hist).2).2 = some s
    ∨ (symbol = "BTC"
        ∧ (btcDominanceRun spot_snapshot
            (volumeSurgeRun symbol spot_data (oiSurgeRun symbol deriv_data hist).2).2).1
          = some s) := by
  unfold symbolStepRun at h
  dsimp only at h
  rcases mem_addSig h with h | h11
  · rcases mem_addSig h with h | h10
    · rcases mem_addSig h with h | h9
      · rcases mem_addSig h with h | h8
        · rcases mem_addSig h with h | h7
          · rcases mem_addSig h with h | h6
            · rcases mem_addSig h with h | h5
              · rcases mem_addSig h with h | h4
                · rcases mem_addSig h with h | h3
                  · rcases mem_addSig h with h | h2
                    · rcases mem_addSig h with h | h1
                      · simp at h
                      · exact Or.inl h1
                    · exact Or.inr (Or.inl h2)
                  · exact Or.inr (Or.inr (Or.inl h3))
                · exact Or.inr (Or.inr (Or.inr (Or.inl h4)))
              · exact Or.inr (Or.inr (Or.inr (Or.inr (Or.inl h5))))
            · exact Or.inr (Or.inr (Or.inr (Or.inr (Or.inr (Or.inl h6)))))
          · exact Or.inr (Or.inr (Or.inr (Or.inr (Or.inr (Or.inr (Or.inl h7))))))
        · exact Or.inr (Or.inr (Or.inr (Or.inr (Or.inr (Or.inr (Or.inr (Or.inl h8)))))))
      · exact Or.inr (Or.inr (Or.inr (Or.inr (Or.inr (Or.inr (Or.inr (Or.inr (Or.inl h9))))))))
    · exact Or.inr (Or.inr (Or.inr (Or.inr (Or.inr (Or.inr (Or.inr (Or.inr (Or.inr
        (Or.inl h10)))))))))
  · split at h11
    · next hc =>
      exact Or.inr (Or.inr (Or.inr (Or.inr (Or.inr (Or.inr (Or.inr (Or.inr (Or.inr
        (Or.inr ⟨hc.1, h11⟩)))))))))
    · simp at h11

/-- On an empty per-symbol history, no rule-2/4/7/11 signal is produced. -/
theorem symbolStepRun_nil_metrics {spot_snapshot : List (String × SpotData)}
    {symbol : String} {spot_data : SpotData} {deriv_data : DerivData} {s : Signal}
    (hs : s ∈ (symbolStepRun spot_snapshot symbol spot_data deriv_data []).1) :
    s.metric ≠ "open_interest_change_24h" ∧ s.metric ≠ "volume_zscore"
    ∧ s.metric ≠ "price_drop_volume_combo" ∧ s.metric ≠ "btc_dominance_change" := by
  rcases symbolStepRun_mem hs with h|h|h|h|h|h|h|h|h|h|h
  · obtain ⟨lvl, dir, rfl⟩ := checkFundingOverheated_some h
    refine ⟨?_, ?_, ?_, ?_⟩ <;> (simp only [fundingOverheatedSig]; decide)
  · rw [oiSurgeRun_nil] at h
    simp at h
  · obtain ⟨lvl, dir, rfl⟩ := volatilitySpikeRun_some h
    refine ⟨?_, ?_, ?_, ?_⟩ <;> (simp only [volatilitySpikeSig]; decide)
  · rw [oiSurgeRun_nil, volumeSurgeRun_single] at h
    simp at h
  · obtain ⟨lvl, dir, rfl⟩ := longShortRatioRun_some h
    refine ⟨?_, ?_, ?_, ?_⟩ <;> (simp only [longShortSig]; decide)
  · obtain rfl := priceOiSurgeRun_some h
    refine ⟨?_, ?_, ?_, ?_⟩ <;> (simp only [priceOiSurgeSig]; decide)
  · rw [oiSurgeRun_nil, volumeSurgeRun_single, priceDropVolumeRun_fresh] at h
    simp at h
  · obtain ⟨dir, rfl⟩ := checkExtremeFunding_some h
    refine ⟨?_, ?_, ?_, ?_⟩ <;> (simp only [extremeFundingSig]; decide)
  · obtain rfl := liquidationRiskRun_some h
    refine ⟨?_, ?_, ?_, ?_⟩ <;> (simp only [liquidationRiskSig]; decide)
  · obtain rfl := momentumDivergenceRun_some h
    refine ⟨?_, ?_, ?_, ?_⟩ <;> (simp only [momentumDivergenceSig]; decide)
  · obtain ⟨hB, h⟩ := h
    rw [oiSurgeRun_nil, volumeSurgeRun_single, btcDominanceRun_fresh] at h
    simp at h

/-- The `analyze` loop on a cold history map never emits a rule-2/4/7/11
signal. -/
theorem analyzeLoopRun_cold (spot : List (String × SpotData))
    (deriv : List (String × DerivData)) :
    ∀ syms : List String, syms.Nodup →
    ∀ (signals : List Signal) (rationale : List String) (histm : HistMap),
      (∀ sym ∈ syms, histm sym = []) →
      ∀ s ∈ (analyzeLoopRun spot deriv syms signals rationale histm).1,
        s ∈ signals ∨
          (s.metric ≠ "open_interest_change_24h" ∧ s.metric ≠ "volume_zscore"
            ∧ s.metric ≠ "price_drop_volume_combo" ∧ s.metric ≠ "btc_dominance_change") := by
  intro syms
  induction syms with
  | nil => intro _ signals rationale histm _ s hs; exact Or.inl hs
  | cons symbol rest ih =>
    intro hnd signals rationale histm hcold s hs
    have hndr := (List.nodup_cons.mp hnd).2
    have hnm := (List.nodup_cons.mp hnd).1
    unfold analyzeLoopRun at hs
    cases hsp : alookup spot symbol with
    | none =>
      rw [hsp] at hs
      exact ih hndr signals rationale histm
        (fun sym hm => hcold sym (List.mem_cons_of_mem _ hm)) s hs
    | some spot_data =>
      cases hdp : alookup deriv symbol with
      | none =>
        rw [hsp, hdp] at hs
        exact ih hndr signals rationale histm
          (fun sym hm => hcold sym (List.mem_cons_of_mem _ hm)) s hs
      | some deriv_data =>
        rw [hsp, hdp] at hs
        dsimp only at hs
        have hcoldsym : histm symbol = [] := hcold symbol (List.mem_cons_self _ _)
        rw [hcoldsym] at hs
        have hrest : ∀ sym ∈ rest,
            (setH histm symbol
              (symbolStepRun spot symbol spot_data deriv_data []).2.2) sym = [] := by
          intro sym hm
          rw [setH_other _ _ _ _ (fun he => hnm (by rw [← he]; exact hm))]
          exact hcold sym (List.mem_cons_of_mem _ hm)
        rcases ih hndr _ _ _ hrest s hs with hmem | hc
        · rcases List.mem_append.mp hmem with hmem | hmem
          · exact Or.inl hmem
          · exact Or.inr (symbolStepRun_nil_metrics hmem)
        · exact Or.inr hc

/-- The analyzed symbols form a duplicate-free list. -/
theorem analyzedSymbols_nodup (spot : List (String × SpotData))
    (deriv : List (String × DerivData)) : (analyzedSymbols spot deriv).Nodup :=
  (List.nodup_dedup _).filter _

/-- C4: on a freshly constructed engine, `analyze` is a pure function of the
snapshot pair — two cold runs on the identical pair agree on everything but
the top-level timestamp — and the history-dependent rules 2 (OI surge),
4 (volume surge), 7 (price drop + volume surge) and 11 (BTC dominance shift)
never emit a signal on a cold engine. -/
theorem cold_engine_deterministic (spot : List (String × SpotData))
    (deriv : List (String × DerivData)) (t1 t2 : String)
    (res1 res2 : AnalyzeResult) (h1 h2 : HistMap)
    (ha1 : analyze spot deriv emptyHist t1 = .ok (res1, h1))
    (ha2 : analyze spot deriv emptyHist t2 = .ok (res2, h2)) :
    res1.signals = res2.signals ∧ res1.regime = res2.regime
    ∧ ∀ s ∈ res1.signals,
        s.metric ≠ "open_interest_change_24h" ∧ s.metric ≠ "volume_zscore"
        ∧ s.metric ≠ "price_drop_volume_combo" ∧ s.metric ≠ "btc_dominance_change" := by
  obtain ⟨hr1, -⟩ := analyze_ok_inv ha1
  obtain ⟨hr2, -⟩ := analyze_ok_inv ha2
  subst hr1
  subst hr2
  refine ⟨rfl, rfl, fun s hs => ?_⟩
  have hcold :
      ∀ sym ∈ analyzedSymbols spot deriv, emptyHist sym = [] := fun _ _ => rfl
  rcases analyzeLoopRun_cold spot deriv (analyzedSymbols spot deriv)
      (analyzedSymbols_nodup spot deriv) [] [] emptyHist hcold s hs with hmem | hc
  · exact absurd hmem (List.not_mem_nil s)
  · exact hc

/-- The cold result with another timestamp differs only in the timestamp. -/
theorem exEval_u :
    analyze exSpot exDeriv emptyHist "u"
      = .ok ({ exRes with timestamp := "u" }, exHistAfter) := by
  obtain ⟨hr, hh⟩ := analyze_ok_inv exEval
  rw [analyze_eq, hr, hh]
  rfl

/-- Witness for C4 at the extreme-conditions scenario with two timestamps. -/
theorem cold_engine_deterministic_witness :
    (analyze exSpot exDeriv emptyHist "t" = .ok (exRes, exHistAfter)
      ∧ analyze exSpot exDeriv emptyHist "u"
          = .ok ({ exRes with timestamp := "u" }, exHistAfter))
    ∧ (exRes.signals = ({ exRes with timestamp := "u" } : AnalyzeResult).signals
      ∧ exRes.regime = ({ exRes with timestamp := "u" } : AnalyzeResult).regime
      ∧ ∀ s ∈ exRes.signals,
          s.metric ≠ "open_interest_change_24h" ∧ s.metric ≠ "volume_zscore"
          ∧ s.metric ≠ "price_drop_volume_combo" ∧ s.metric ≠ "btc_dominance_change") :=
  ⟨⟨exEval, exEval_u⟩,
   cold_engine_deterministic exSpot exDeriv "t" "u" exRes { exRes with timestamp := "u" }
     exHistAfter exHistAfter exEval exEval_u⟩

/-! ## Claim C10 -/

/-- `Forall₂ SigRat` is preserved by appending paired blocks. -/
theorem sigRat_append {l₁ u₁ : List Signal} {l₂ u₂ : List String}
    (h : List.Forall₂ SigRat l₁ l₂) (h' : List.Forall₂ SigRat u₁ u₂) :
    List.Forall₂ SigRat (l₁ ++ u₁) (l₂ ++ u₂) := by
  induction h with
  | nil => exact h'
  | cons ha _ ih => exact List.Forall₂.cons ha ih

/-- `addSig` appends a fired signal and its rationale entry together, so it
preserves the positional pairing. -/
theorem addSig_forall₂ {acc : List Signal × List String} {sig : Option Signal}
    {r : String} (hacc : List.Forall₂ SigRat acc.1 acc.2)
    (hsig : ∀ s, sig = some s → SigRat s r) :
    List.Forall₂ SigRat (addSig acc sig r).1 (addSig acc sig r).2 := by
  cases sig with
  | none => exact hacc
  | some s => exact sigRat_append hacc (List.Forall₂.cons (hsig s rfl) List.Forall₂.nil)

/-- Every rule of `symbolStepRun` appends its signal paired with its own
rationale text. -/
theorem symbolStepRun_forall₂ (spot_snapshot : List (String × SpotData))
    (symbol : String) (spot_data : SpotData) (deriv_data : DerivData)
    (hist : List Entry) :
    List.Forall₂ SigRat
      (symbolStepRun spot_snapshot symbol spot_data deriv_data hist).1
      (symbolStepRun spot_snapshot symbol spot_data deriv_data hist).2.1 := by
  unfold symbolStepRun
  dsimp only
  refine addSig_forall₂ (addSig_forall₂ (addSig_forall₂ (addSig_forall₂ (addSig_forall₂
    (addSig_forall₂ (addSig_forall₂ (addSig_forall₂ (addSig_forall₂ (addSig_forall₂
    (addSig_forall₂ List.Forall₂.nil ?_) ?_) ?_) ?_) ?_) ?_) ?_) ?_) ?_) ?_) ?_
  · exact fun s h => Or.inl ⟨symbol, deriv_data, h, rfl⟩
  · exact fun s h => Or.inr (Or.inl ⟨symbol, deriv_data, hist, h, rfl⟩)
  · exact fun s h => Or.inr (Or.inr (Or.inl ⟨symbol, spot_data, h, rfl⟩))
  · exact fun s h => Or.inr (Or.inr (Or.inr (Or.inl
      ⟨symbol, spot_data, _, h, rfl⟩)))
  · exact fun s h => Or.inr (Or.inr (Or.inr (Or.inr (Or.inl
      ⟨symbol, deriv_data, h, rfl⟩))))
  · exact fun s h => Or.inr (Or.inr (Or.inr (Or.inr (Or.inr (Or.inl
      ⟨symbol, spot_data, deriv_data, _, h, rfl⟩)))))
  · exact fun s h => Or.inr (Or.inr (Or.inr (Or.inr (Or.inr (Or.inr (Or.inl
      ⟨symbol, spot_data, _, h, rfl⟩))))))
  · exact fun s h => Or.inr (Or.inr (Or.inr (Or.inr (Or.inr (Or.inr (Or.inr (Or.inl
      ⟨symbol, deriv_data, h, rfl⟩)))))))
  · exact fun s h => Or.inr (Or.inr (Or.inr (Or.inr (Or.inr (Or.inr (Or.inr (Or.inr
      (Or.inl ⟨symbol, deriv_data, h, rfl⟩))))))))
  · exact fun s h => Or.inr (Or.inr (Or.inr (Or.inr (Or.inr (Or.inr (Or.inr (Or.inr
      (Or.inr (Or.inl ⟨symbol, spot_data, deriv_data, _, h, rfl⟩)))))))))
  · intro s h
    split at h
    · exact Or.inr (Or.inr (Or.inr (Or.inr (Or.inr (Or.inr (Or.inr (Or.inr (Or.inr
        (Or.inr ⟨spot_snapshot, _, h, rfl⟩)))))))))
    · simp at h

/-- Along the analysis loop, the signal list and the rationale list stay
positionally paired. -/
theorem analyzeLoopRun_forall₂ (spot : List (String × SpotData))
    (deriv : List (String × DerivData)) :
    ∀ (syms : List String) (signals : List Signal) (rationale : List String)
      (histm : HistMap),
      List.Forall₂ SigRat signals rationale →
      List.Forall₂ SigRat (analyzeLoopRun spot deriv syms signals rationale histm).1
        (analyzeLoopRun spot deriv syms signals rationale histm).2.1 := by
  intro syms
  induction syms with
  | nil => intro signals rationale histm h; exact h
  | cons symbol rest ih =>
    intro signals rationale histm h
    unfold analyzeLoopRun
    cases hsp : alookup spot symbol with
    | none => exact ih signals rationale histm h
    | some spot_data =>
      cases hdp : alookup deriv symbol with
      | none => exact ih signals rationale histm h
      | some deriv_data =>
        dsimp only
        exact ih _ _ _ (sigRat_append h
          (symbolStepRun_forall₂ spot symbol spot_data deriv_data (histm symbol)))

/-- `_determine_regime` keeps the first ten rationale entries, which stay
paired with the signals they were appended with. -/
theorem determineRegime_rationale {signals : List Signal} {rationale : List String}
    (hp : List.Forall₂ SigRat signals rationale) :
    (signals = [] → (determineRegime signals rationale).rationale
        = ["No significant signals detected"])
    ∧ (signals ≠ [] →
        (determineRegime signals rationale).rationale.length = min signals.length 10)
    ∧ ∀ (i : ℕ) (h₁ : i < signals.length)
        (h₂ : i < (determineRegime signals rationale).rationale.length),
        SigRat (signals.get ⟨i, h₁⟩)
          ((determineRegime signals rationale).rationale.get ⟨i, h₂⟩) := by
  by_cases hnil : signals = []
  · subst hnil
    exact ⟨fun _ => rfl, fun hne => absurd rfl hne,
      fun i h₁ _ => absurd h₁ (Nat.not_lt_zero i)⟩
  · have hlen : signals.length = rationale.length := hp.length_eq
    have hdr : (determineRegime signals rationale).rationale = List.take 10 rationale := by
      simp only [determineRegime, if_neg hnil]
    refine ⟨fun he => absurd he hnil, fun _ => ?_, ?_⟩
    · rw [hdr, List.length_take, ← hlen, Nat.min_comm]
    · intro i h₁ h₂
      have h₂' : i < rationale.length := by
        rw [hdr, List.length_take] at h₂
        omega
      have hget : (determineRegime signals rationale).rationale.get ⟨i, h₂⟩
          = rationale.get ⟨i, h₂'⟩ := by
        simp only [List.get_eq_getElem]
        rw [List.getElem_of_eq hdr]
        simp [List.getElem_take']
      rw [hget]
      exact hp.get h₁ h₂'

/-- C10: after every `analyze` call the regime rationale has exactly one entry
when no signal fired and exactly `min (number of signals) 10` entries
otherwise, and the `i`-th rationale entry (`i < 10`) is the rationale text the
engine appended together with the `i`-th emitted signal — it was produced by
the same rule firing (`SigRat`). -/
theorem rationale_pairing (spot : List (String × SpotData))
    (deriv : List (String × DerivData)) (histm : HistMap) (ts : String)
    (res : AnalyzeResult) (hF : HistMap)
    (h : analyze spot deriv histm ts = .ok (res, hF)) :
    (res.signals = [] → res.regime.rationale = ["No significant signals detected"])
    ∧ (res.signals ≠ [] → res.regime.rationale.length = min res.signals.length 10)
    ∧ ∀ (i : ℕ) (h₁ : i < res.signals.length) (h₂ : i < res.regime.rationale.length),
        SigRat (res.signals.get ⟨i, h₁⟩) (res.regime.rationale.get ⟨i, h₂⟩) := by
  obtain ⟨hres, -⟩ := analyze_ok_inv h
  subst hres
  exact determineRegime_rationale (analyzeLoopRun_forall₂ spot deriv
    (analyzedSymbols spot deriv) [] [] histm List.Forall₂.nil)

/-- Witness for C10 at the extreme-conditions scenario: four signals fired and
the rationale has `min 4 10 = 4` entries. -/
theorem rationale_pairing_witness :
    exRes.signals ≠ []
    ∧ exRes.regime.rationale.length = min exRes.signals.length 10 :=
  ⟨by decide,
    (rationale_pairing exSpot exDeriv emptyHist "t" exRes exHistAfter exEval).2.1
      (by decide)⟩

/-! ## Claim C3 -/

/-- Two appended strings differ when their tails differ somewhere in the
last `n` characters. -/
theorem append_ne_append_of_rev (n : ℕ) (a t1 b t2 : String)
    (hn1 : n ≤ t1.data.length) (hn2 : n ≤ t2.data.length)
    (hne : t1.data.reverse.take n ≠ t2.data.reverse.take n) :
    a ++ t1 ≠ b ++ t2 := by
  intro he
  apply hne
  have hd := congrArg (fun s : String => s.data.reverse.take n) he
  dsimp only at hd
  rw [String.data_append, String.data_append, List.reverse_append,
    List.reverse_append, List.take_append_of_le_length (by simpa using hn1),
    List.take_append_of_le_length (by simpa using hn2)] at hd
  exact hd

/-- Right cancellation for string append. -/
theorem str_append_right_cancel {s t a : String} (h : s ++ a = t ++ a) : s = t := by
  have hd := congrArg String.data h
  rw [String.data_append, String.data_append] at hd
  have hst := List.append_cancel_right hd
  cases s
  cases t
  exact congrArg String.mk hst

/-- `List.filter` through `addSig`. -/
theorem filter_addSig (p : Signal → Bool) (acc : List Signal × List String)
    (sig : Option Signal) (r : String) :
    ((addSig acc sig r).1).filter p
      = (acc.1).filter p ++ (sig.toList).filter p := by
  cases sig with
  | none => simp [addSig]
  | some s => simp [addSig, List.filter_append]

/-- An optional signal none of whose values pass the filter contributes
nothing. -/
theorem filter_toList_nil {p : Signal → Bool} {sig : Option Signal}
    (h : ∀ s, sig = some s → p s = false) : (sig.toList).filter p = [] := by
  cases sig with
  | none => rfl
  | some s => simp [h s rfl]

/-- An optional signal all of whose values pass the filter contributes
itself. -/
theorem filter_toList_self {p : Signal → Bool} {sig : Option Signal}
    (h : ∀ s, sig = some s → p s = true) : (sig.toList).filter p = sig.toList := by
  cases sig with
  | none => rfl
  | some s => simp [h s rfl]

/-- A rule whose ids end in a tail that differs from `t2` within the last `n`
characters never passes the id filter for `b ++ t2`. -/
theorem filter_toList_ne (n : ℕ) (t1 b t2 : String) (sig : Option Signal)
    (hn1 : n ≤ t1.data.length) (hn2 : n ≤ t2.data.length)
    (hne : t1.data.reverse.take n ≠ t2.data.reverse.take n)
    (hshape : ∀ s, sig = some s → ∃ a : String, s.id = a ++ t1) :
    (sig.toList).filter (fun s => s.id = b ++ t2) = [] := by
  refine filter_toList_nil (fun s hs => ?_)
  obtain ⟨a, ha⟩ := hshape s hs
  show decide (s.id = b ++ t2) = false
  rw [ha]
  exact decide_eq_false (append_ne_append_of_rev n a t1 b t2 hn1 hn2 hne)

/-- Head-membership trimming for the loop conditions. -/
theorem mem_cons_cond_iff {sym0 symbol : String} {rest : List String}
    (hm : symbol ≠ sym0) (A : Prop) :
    (sym0 ∈ symbol :: rest ∧ A) ↔ (sym0 ∈ rest ∧ A) := by
  constructor
  · rintro ⟨h1, h2⟩
    rcases List.mem_cons.mp h1 with h | h
    · exact absurd h.symm hm
    · exact ⟨h, h2⟩
  · rintro ⟨h1, h2⟩
    exact ⟨List.mem_cons_of_mem _ h1, h2⟩

/-- A key occurring in the snapshot is found by `alookup`. -/
theorem alookup_isSome_of_mem {α : Type} {l : List (String × α)} {k : String}
    (h : k ∈ l.map Prod.fst) : (alookup l k).isSome := by
  induction l with
  | nil => simp at h
  | cons q rest ih =>
    obtain ⟨k0, v⟩ := q
    by_cases he : k0 = k
    · simp [alookup, he]
    · rw [List.map_cons, List.mem_cons] at h
      rcases h with h | h
      · exact absurd h.symm (by simpa using he)
      · simpa [alookup, he] using ih h

/-- Filtering one symbol's signal block for `sym0`'s funding-overheated id
keeps exactly rule 1's output when `symbol = sym0`, and nothing otherwise:
every other rule's id ends differently, and rule 1 for another symbol has a
different symbol prefix. -/
theorem symbolStepRun_filter_funding (spot_snapshot : List (String × SpotData))
    (symbol sym0 : String) (spot_data : SpotData) (deriv_data : DerivData)
    (hist : List Entry) :
    ((symbolStepRun spot_snapshot symbol spot_data deriv_data hist).1).filter
        (fun s => s.id = sym0 ++ "_funding_overheated")
      = if symbol = sym0 then (checkFundingOverheated symbol deriv_data).toList
        else [] := by
  have k2 := filter_toList_ne 1 "_oi_surge" sym0 "_funding_overheated"
    ((oiSurgeRun symbol deriv_data hist).1) (by decide) (by decide) (by decide)
    (fun s hs => ⟨symbol, by
      obtain ⟨l, hl⟩ := oiSurgeRun_some hs; subst hl; rfl⟩)
  have k3 := filter_toList_ne 1 "_volatility_spike" sym0 "_funding_overheated"
    (volatilitySpikeRun symbol spot_data) (by decide) (by decide) (by decide)
    (fun s hs => ⟨symbol, by
      obtain ⟨l, d, hl⟩ := volatilitySpikeRun_some hs; subst hl; rfl⟩)
  have k4 := filter_toList_ne 1 "_volume_surge" sym0 "_funding_overheated"
    ((volumeSurgeRun symbol spot_data (oiSurgeRun symbol deriv_data hist).2).1)
    (by decide) (by decide) (by decide)
    (fun s hs => ⟨symbol, by rw [volumeSurgeRun_some hs]; rfl⟩)
  have k5 := filter_toList_ne 1 "_long_short_imbalance" sym0 "_funding_overheated"
    (longShortRatioRun symbol deriv_data) (by decide) (by decide) (by decide)
    (fun s hs => ⟨symbol, by
      obtain ⟨l, d, hl⟩ := longShortRatioRun_some hs; subst hl; rfl⟩)
  have k6 := filter_toList_ne 1 "_liquidation_risk_alert" sym0 "_funding_overheated"
    (priceOiSurgeRun symbol spot_data deriv_data
      (volumeSurgeRun symbol spot_data (oiSurgeRun symbol deriv_data hist).2).2)
    (by decide) (by decide) (by decide)
    (fun s hs => ⟨symbol, by rw [priceOiSurgeRun_some hs]; rfl⟩)
  have k7 := filter_toList_ne 1 "_panic_selling_risk" sym0 "_funding_overheated"
    (priceDropVolumeRun symbol spot_data
      (volumeSurgeRun symbol spot_data (oiSurgeRun symbol deriv_data hist).2).2)
    (by decide) (by decide) (by decide)
    (fun s hs => ⟨symbol, by rw [priceDropVolumeRun_some hs]; rfl⟩)
  have k8 := filter_toList_ne 1 "_extreme_funding" sym0 "_funding_overheated"
    (checkExtremeFunding symbol deriv_data) (by decide) (by decide) (by decide)
    (fun s hs => ⟨symbol, by
      obtain ⟨d, hl⟩ := checkExtremeFunding_some hs; subst hl; rfl⟩)
  have k9 := filter_toList_ne 1 "_high_liquidation_risk" sym0 "_funding_overheated"
    (liquidationRiskRun symbol deriv_data) (by decide) (by decide) (by decide)
    (fun s hs => ⟨symbol, by rw [liquidationRiskRun_some hs]; rfl⟩)
  have k10 := filter_toList_ne 1 "_momentum_divergence" sym0 "_funding_overheated"
    (momentumDivergenceRun symbol spot_data deriv_data
      (volumeSurgeRun symbol spot_data (oiSurgeRun symbol deriv_data hist).2).2)
    (by decide) (by decide) (by decide)
    (fun s hs => ⟨symbol, by rw [momentumDivergenceRun_some hs]; rfl⟩)
  have k11 := filter_toList_ne 1 "btc_dominance_change" sym0 "_funding_overheated"
    ((if symbol = "BTC" ∧ (spot_snapshot.map Prod.fst).dedup.length > 1
        then btcDominanceRun spot_snapshot
          (volumeSurgeRun symbol spot_data (oiSurgeRun symbol deriv_data hist).2).2
        else (none,
          (volumeSurgeRun symbol spot_data (oiSurgeRun symbol deriv_data hist).2).2)).1)
    (by decide) (by decide) (by decide)
    (fun s hs => by
      split at hs
      · obtain ⟨d, hl⟩ := btcDominanceRun_some hs
        subst hl
        exact ⟨"", rfl⟩
      · simp at hs)
  unfold symbolStepRun
  dsimp only
  rw [filter_addSig, filter_addSig, filter_addSig, filter_addSig, filter_addSig,
    filter_addSig, filter_addSig, filter_addSig, filter_addSig, filter_addSig,
    filter_addSig, k2, k3, k4, k5, k6, k7, k8, k9, k10, k11]
  simp only [List.filter_nil, List.nil_append, List.append_nil]
  by_cases hm : symbol = sym0
  · subst hm
    rw [if_pos rfl]
    refine filter_toList_self (fun s hs => ?_)
    obtain ⟨l, d, hl⟩ := checkFundingOverheated_some hs
    subst hl
    exact decide_eq_true rfl
  · rw [if_neg hm]
    refine filter_toList_nil (fun s hs => ?_)
    obtain ⟨l, d, hl⟩ := checkFundingOverheated_some hs
    subst hl
    show decide ((symbol ++ "_funding_overheated" : String)
      = sym0 ++ "_funding_overheated") = false
    exact decide_eq_false (fun he => hm (str_append_right_cancel he))

/-- Filtering the loop's signal output with a predicate only `sym0`'s block
can satisfy: the loop contributes `sym0`'s selection, computed on `sym0`'s
history at the moment that symbol is processed. -/
theorem analyzeLoopRun_filter (spot : List (String × SpotData))
    (deriv : List (String × DerivData)) (p : Signal → Bool) (sym0 : String)
    (sel : List Entry → List Signal)
    (hblock : ∀ symbol sd dd hist,
        alookup spot symbol = some sd → alookup deriv symbol = some dd →
        ((symbolStepRun spot symbol sd dd hist).1).filter p
          = if symbol = sym0 then sel hist else []) :
    ∀ syms : List String, syms.Nodup →
    ∀ (signals : List Signal) (rationale : List String) (histm : HistMap),
      ((analyzeLoopRun spot deriv syms signals rationale histm).1).filter p
        = signals.filter p
          ++ if sym0 ∈ syms ∧ (alookup spot sym0).isSome ∧ (alookup deriv sym0).isSome
             then sel (histm sym0) else [] := by
  intro syms
  induction syms with
  | nil =>
    intro _ signals rationale histm
    simp [analyzeLoopRun]
  | cons symbol rest ih =>
    intro hnd signals rationale histm
    have hndr := (List.nodup_cons.mp hnd).2
    have hnm := (List.nodup_cons.mp hnd).1
    unfold analyzeLoopRun
    cases hsp : alookup spot symbol with
    | none =>
      show ((analyzeLoopRun spot deriv rest signals rationale histm).1).filter p = _
      rw [ih hndr signals rationale histm]
      by_cases hm : symbol = sym0
      · subst hm
        rw [if_neg (fun hc => by simp [hsp] at hc),
          if_neg (fun hc => by simp [hsp] at hc)]
      · rw [if_congr (mem_cons_cond_iff hm _) rfl rfl]
    | some spot_data =>
      cases hdp : alookup deriv symbol with
      | none =>
        show ((analyzeLoopRun spot deriv rest signals rationale histm).1).filter p = _
        rw [ih hndr signals rationale histm]
        by_cases hm : symbol = sym0
        · subst hm
          rw [if_neg (fun hc => by simp [hdp] at hc),
            if_neg (fun hc => by simp [hdp] at hc)]
        · rw [if_congr (mem_cons_cond_iff hm _) rfl rfl]
      | some deriv_data =>
        show ((analyzeLoopRun spot deriv rest
            (signals ++ (symbolStepRun spot symbol spot_data deriv_data (histm symbol)).1)
            (rationale
              ++ (symbolStepRun spot symbol spot_data deriv_data (histm symbol)).2.1)
            (setH histm symbol
              (symbolStepRun spot symbol spot_data deriv_data
                (histm symbol)).2.2)).1).filter p = _
        rw [ih hndr, List.filter_append,
          hblock symbol spot_data deriv_data (histm symbol) hsp hdp,
          List.append_assoc]
        by_cases hm : symbol = sym0
        · subst hm
          rw [if_pos rfl, if_neg (fun hc => hnm hc.1),
            if_pos ⟨List.mem_cons_self _ _, by rw [hsp]; rfl, by rw [hdp]; rfl⟩]
          simp
        · have hso : setH histm symbol
              (symbolStepRun spot symbol spot_data deriv_data (histm symbol)).2.2 sym0
              = histm sym0 := setH_other _ _ _ _ (fun he => hm he.symm)
          rw [if_neg hm, hso, if_congr (mem_cons_cond_iff hm _) rfl rfl]
          simp

/-- Rule 1's output as a list, with the thresholds spelled out. -/
theorem checkFundingOverheated_toList (symbol : String) (dd : DerivData) :
    (checkFundingOverheated symbol dd).toList
      = if |dd.funding_rate_24h.getD 0| ≥ 0.01 then
          [fundingOverheatedSig symbol
            (if |dd.funding_rate_24h.getD 0| ≥ 0.05 then "critical" else "warn")
            (if dd.funding_rate_24h.getD 0 > 0 then "long" else "short")]
        else [] := by
  unfold checkFundingOverheated funding_rate_overheated funding_rate_extreme
  dsimp only
  split <;> rfl

/-- C3: for every analyzed symbol, the result contains exactly one
funding-overheated signal for that symbol when
`|funding_rate_24h| ≥ 0.01` — with level `"critical"` iff
`|funding_rate_24h| ≥ 0.05` and `"warn"` otherwise, and direction `"long"`
iff the value is positive — and none when `|funding_rate_24h| < 0.01`. -/
theorem funding_overheated_exact (spot : List (String × SpotData))
    (deriv : List (String × DerivData)) (histm : HistMap) (ts : String)
    (res : AnalyzeResult) (hF : HistMap) (sym0 : String) (dd0 : DerivData)
    (hmem : sym0 ∈ analyzedSymbols spot deriv)
    (hdp0 : alookup deriv sym0 = some dd0)
    (h : analyze spot deriv histm ts = .ok (res, hF)) :
    res.signals.filter (fun s => s.id = sym0 ++ "_funding_overheated")
      = if |dd0.funding_rate_24h.getD 0| ≥ 0.01 then
          [fundingOverheatedSig sym0
            (if |dd0.funding_rate_24h.getD 0| ≥ 0.05 then "critical" else "warn")
            (if dd0.funding_rate_24h.getD 0 > 0 then "long" else "short")]
        else [] := by
  obtain ⟨hres, -⟩ := analyze_ok_inv h
  subst hres
  have hmem2 := List.mem_filter.mp hmem
  have hsp0 : (alookup spot sym0).isSome :=
    alookup_isSome_of_mem (List.mem_dedup.mp hmem2.1)
  have hblock : ∀ symbol sd dd hist,
      alookup spot symbol = some sd → alookup deriv symbol = some dd →
      ((symbolStepRun spot symbol sd dd hist).1).filter
          (fun s => s.id = sym0 ++ "_funding_overheated")
        = if symbol = sym0 then (checkFundingOverheated sym0 dd0).toList else [] := by
    intro symbol sd dd hist hsp hdp
    rw [symbolStepRun_filter_funding spot symbol sym0 sd dd hist]
    by_cases hm : symbol = sym0
    · subst hm
      rw [hdp0] at hdp
      have hdd := Option.some_injective _ hdp
      subst hdd
      rfl
    · rw [if_neg hm, if_neg hm]
  have hsig : (analyzeRun spot deriv histm ts).1.signals
      = (analyzeLoopRun spot deriv (analyzedSymbols spot deriv) [] [] histm).1 := rfl
  rw [hsig,
    analyzeLoopRun_filter spot deriv _ sym0
      (fun _ => (checkFundingOverheated sym0 dd0).toList) hblock
      (analyzedSymbols spot deriv) (analyzedSymbols_nodup spot deriv) [] [] histm,
    if_pos ⟨hmem, hsp0, by rw [hdp0]; rfl⟩]
  rw [List.filter_nil, List.nil_append]
  exact checkFundingOverheated_toList sym0 dd0

/-- Witness for C3: in the extreme scenario `funding_rate_24h = 0.08`, so
filtering the result for `BTC`'s funding-overheated id yields exactly the
critical long signal. -/
theorem funding_overheated_exact_witness :
    ("BTC" ∈ analyzedSymbols exSpot exDeriv)
    ∧ exRes.signals.filter (fun s => s.id = "BTC" ++ "_funding_overheated")
        = [fundingOverheatedSig "BTC" "critical" "long"] :=
  ⟨by decide,
   (funding_overheated_exact exSpot exDeriv emptyHist "t" exRes exHistAfter "BTC"
      { funding_rate := some 0.06, funding_rate_24h := some 0.08,
        open_interest := some 150000000000,
        open_interest_usd := some 150000000000,
        long_short_ratio := some 2.0,
        long_liquidation_24h := some 200000000,
        short_liquidation_24h := some 100000000 } (by decide) rfl exEval).trans
     (by norm_num [abs_of_pos])⟩

/-! ## Claim C5 -/

/-- Rule 11 on a one-entry history without stored dominance only writes the
dominance field (or leaves the history untouched). -/
theorem btcDominanceRun_single_hist (spot_snapshot : List (String × SpotData))
    (a b : Option ℚ) :
    ∃ c : Option ℚ,
      (btcDominanceRun spot_snapshot
        [{ open_interest_usd := a, volume_ratio := b, btc_dominance := none }]).2
        = [{ open_interest_usd := a, volume_ratio := b, btc_dominance := c }] := by
  unfold btcDominanceRun
  cases halb : alookup spot_snapshot "BTC" with
  | none => exact ⟨none, rfl⟩
  | some btcData =>
    dsimp only
    split
    · exact ⟨none, rfl⟩
    · simp only [List.getLast?_singleton, Option.getD_none, sub_self, abs_zero]
      rw [if_neg (by norm_num)]
      exact ⟨_, rfl⟩

/-- A symbol step on an empty history leaves a one-entry history whose
stored `open_interest_usd` is the seeded value from rule 2. -/
theorem symbolStepRun_hist_nil (spot_snapshot : List (String × SpotData))
    (symbol : String) (sd : SpotData) (dd : DerivData) :
    ∃ b c : Option ℚ,
      (symbolStepRun spot_snapshot symbol sd dd []).2.2
        = [{ open_interest_usd :=
               some (dd.open_interest_usd.getD (dd.open_interest.getD 0)),
             volume_ratio := b, btc_dominance := c }] := by
  unfold symbolStepRun
  dsimp only
  rw [oiSurgeRun_nil]
  dsimp only
  rw [volumeSurgeRun_single]
  dsimp only
  split
  · obtain ⟨c, hc⟩ := btcDominanceRun_single_hist spot_snapshot _ _
    exact ⟨some (volumeRatioOf sd), c, hc⟩
  · exact ⟨some (volumeRatioOf sd), none, rfl⟩

/-- Rule 2 fires at level critical on a stored positive baseline that the
current open interest exceeds by at least 30%. -/
theorem oiSurgeRun_surge (symbol : String) (dd2 : DerivData) (oi1 oi2 : ℚ)
    (b c : Option ℚ) (hoi2 : dd2.open_interest_usd = some oi2)
    (hpos : 0 < oi1) (hsurge : oi1 * (13 / 10) ≤ oi2) :
    (oiSurgeRun symbol dd2
        [{ open_interest_usd := some oi1, volume_ratio := b, btc_dominance := c }]).1
      = some (oiSurgeSig symbol "critical") := by
  unfold oiSurgeRun
  dsimp only
  rw [hoi2]
  simp only [List.getLast?_singleton, Option.getD_some]
  have hcrit : (oi2 - oi1) / oi1 ≥ oi_increase_critical := by
    show ((0.3 : ℚ)) ≤ (oi2 - oi1) / oi1
    rw [le_div_iff₀ hpos]
    linarith
  rw [if_pos hpos, if_pos hcrit]

/-- Membership in a cons with a different head. -/
theorem mem_cons_iff_of_ne {sym0 symbol : String} {rest : List String}
    (hm : symbol ≠ sym0) : (sym0 ∈ symbol :: rest) ↔ (sym0 ∈ rest) := by
  rw [List.mem_cons]
  exact or_iff_right (fun he => hm he.symm)

/-- The loop's final history at an analyzed symbol: exactly that symbol's
step applied to its incoming history; other symbols leave it untouched. -/
theorem analyzeLoopRun_hist (spot : List (String × SpotData))
    (deriv : List (String × DerivData)) (sym0 : String) (sd0 : SpotData)
    (dd0 : DerivData) (hsp0 : alookup spot sym0 = some sd0)
    (hdp0 : alookup deriv sym0 = some dd0) :
    ∀ syms : List String, syms.Nodup →
    ∀ (signals : List Signal) (rationale : List String) (histm : HistMap),
      (analyzeLoopRun spot deriv syms signals rationale histm).2.2 sym0
        = if sym0 ∈ syms
          then (symbolStepRun spot sym0 sd0 dd0 (histm sym0)).2.2
          else histm sym0 := by
  intro syms
  induction syms with
  | nil => intro _ signals rationale histm; simp [analyzeLoopRun]
  | cons symbol rest ih =>
    intro hnd signals rationale histm
    have hndr := (List.nodup_cons.mp hnd).2
    have hnm := (List.nodup_cons.mp hnd).1
    unfold analyzeLoopRun
    cases hsp : alookup spot symbol with
    | none =>
      have hm : symbol ≠ sym0 := fun he => by
        rw [he, hsp0] at hsp
        exact Option.noConfusion hsp
      show (analyzeLoopRun spot deriv rest signals rationale histm).2.2 sym0 = _
      rw [ih hndr signals rationale histm,
        if_congr (mem_cons_iff_of_ne hm) rfl rfl]
    | some spot_data =>
      cases hdp : alookup deriv symbol with
      | none =>
        have hm : symbol ≠ sym0 := fun he => by
          rw [he, hdp0] at hdp
          exact Option.noConfusion hdp
        show (analyzeLoopRun spot deriv rest signals rationale histm).2.2 sym0 = _
        rw [ih hndr signals rationale histm,
          if_congr (mem_cons_iff_of_ne hm) rfl rfl]
      | some deriv_data =>
        show (analyzeLoopRun spot deriv rest
            (signals ++ (symbolStepRun spot symbol spot_data deriv_data (histm symbol)).1)
            (rationale
              ++ (symbolStepRun spot symbol spot_data deriv_data (histm symbol)).2.1)
            (setH histm symbol
              (symbolStepRun spot symbol spot_data deriv_data
                (histm symbol)).2.2)).2.2 sym0 = _
        rw [ih hndr]
        by_cases hm : symbol = sym0
        · subst hm
          rw [hsp0] at hsp
          rw [hdp0] at hdp
          have hsd := Option.some_injective _ hsp
          have hdd := Option.some_injective _ hdp
          subst hsd
          subst hdd
          rw [if_neg hnm, if_pos (List.mem_cons_self _ _), setH_same]
        · have hso : setH histm symbol
              (symbolStepRun spot symbol spot_data deriv_data (histm symbol)).2.2 sym0
              = histm sym0 := setH_other _ _ _ _ (fun he => hm he.symm)
          rw [hso, if_congr (mem_cons_iff_of_ne hm) rfl rfl]

/-- Filtering one symbol's signal block for `sym0`'s OI-surge id keeps
exactly rule 2's output when `symbol = sym0`, and nothing otherwise. -/
theorem symbolStepRun_filter_oi (spot_snapshot : List (String × SpotData))
    (symbol sym0 : String) (spot_data : SpotData) (deriv_data : DerivData)
    (hist : List Entry) :
    ((symbolStepRun spot_snapshot symbol spot_data deriv_data hist).1).filter
        (fun s => s.id = sym0 ++ "_oi_surge")
      = if symbol = sym0 then ((oiSurgeRun symbol deriv_data hist).1).toList
        else [] := by
  have k1 := filter_toList_ne 1 "_funding_overheated" sym0 "_oi_surge"
    (checkFundingOverheated symbol deriv_data) (by decide) (by decide) (by decide)
    (fun s hs => ⟨symbol, by
      obtain ⟨l, d, hl⟩ := checkFundingOverheated_some hs; subst hl; rfl⟩)
  have k3 := filter_toList_ne 2 "_volatility_spike" sym0 "_oi_surge"
    (volatilitySpikeRun symbol spot_data) (by decide) (by decide) (by decide)
    (fun s hs => ⟨symbol, by
      obtain ⟨l, d, hl⟩ := volatilitySpikeRun_some hs; subst hl; rfl⟩)
  have k4 := filter_toList_ne 7 "_volume_surge" sym0 "_oi_surge"
    ((volumeSurgeRun symbol spot_data (oiSurgeRun symbol deriv_data hist).2).1)
    (by decide) (by decide) (by decide)
    (fun s hs => ⟨symbol, by rw [volumeSurgeRun_some hs]; rfl⟩)
  have k5 := filter_toList_ne 2 "_long_short_imbalance" sym0 "_oi_surge"
    (longShortRatioRun symbol deriv_data) (by decide) (by decide) (by decide)
    (fun s hs => ⟨symbol, by
      obtain ⟨l, d, hl⟩ := longShortRatioRun_some hs; subst hl; rfl⟩)
  have k6 := filter_toList_ne 1 "_liquidation_risk_alert" sym0 "_oi_surge"
    (priceOiSurgeRun symbol spot_data deriv_data
      (volumeSurgeRun symbol spot_data (oiSurgeRun symbol deriv_data hist).2).2)
    (by decide) (by decide) (by decide)
    (fun s hs => ⟨symbol, by rw [priceOiSurgeRun_some hs]; rfl⟩)
  have k7 := filter_toList_ne 1 "_panic_selling_risk" sym0 "_oi_surge"
    (priceDropVolumeRun symbol spot_data
      (volumeSurgeRun symbol spot_data (oiSurgeRun symbol deriv_data hist).2).2)
    (by decide) (by decide) (by decide)
    (fun s hs => ⟨symbol, by rw [priceDropVolumeRun_some hs]; rfl⟩)
  have k8 := filter_toList_ne 1 "_extreme_funding" sym0 "_oi_surge"
    (checkExtremeFunding symbol deriv_data) (by decide) (by decide) (by decide)
    (fun s hs => ⟨symbol, by
      obtain ⟨d, hl⟩ := checkExtremeFunding_some hs; subst hl; rfl⟩)
  have k9 := filter_toList_ne 1 "_high_liquidation_risk" sym0 "_oi_surge"
    (liquidationRiskRun symbol deriv_data) (by decide) (by decide) (by decide)
    (fun s hs => ⟨symbol, by rw [liquidationRiskRun_some hs]; rfl⟩)
  have k10 := filter_toList_ne 2 "_momentum_divergence" sym0 "_oi_surge"
    (momentumDivergenceRun symbol spot_data deriv_data
      (volumeSurgeRun symbol spot_data (oiSurgeRun symbol deriv_data hist).2).2)
    (by decide) (by decide) (by decide)
    (fun s hs => ⟨symbol, by rw [momentumDivergenceRun_some hs]; rfl⟩)
  have k11 := filter_toList_ne 3 "btc_dominance_change" sym0 "_oi_surge"
    ((if symbol = "BTC" ∧ (spot_snapshot.map Prod.fst).dedup.length > 1
        then btcDominanceRun spot_snapshot
          (volumeSurgeRun symbol spot_data (oiSurgeRun symbol deriv_data hist).2).2
        else (none,
          (volumeSurgeRun symbol spot_data (oiSurgeRun symbol deriv_data hist).2).2)).1)
    (by decide) (by decide) (by decide)
    (fun s hs => by
      split at hs
      · obtain ⟨d, hl⟩ := btcDominanceRun_some hs
        subst hl
        exact ⟨"", rfl⟩
      · simp at hs)
  unfold symbolStepRun
  dsimp only
  rw [filter_addSig, filter_addSig, filter_addSig, filter_addSig, filter_addSig,
    filter_addSig, filter_addSig, filter_addSig, filter_addSig, filter_addSig,
    filter_addSig, k1, k3, k4, k5, k6, k7, k8, k9, k10, k11]
  simp only [List.filter_nil, List.nil_append, List.append_nil]
  by_cases hm : symbol = sym0
  · subst hm
    rw [if_pos rfl]
    refine filter_toList_self (fun s hs => ?_)
    obtain ⟨l, hl⟩ := oiSurgeRun_some hs
    subst hl
    exact decide_eq_true rfl
  · rw [if_neg hm]
    refine filter_toList_nil (fun s hs => ?_)
    obtain ⟨l, hl⟩ := oiSurgeRun_some hs
    subst hl
    show decide ((symbol ++ "_oi_surge" : String) = sym0 ++ "_oi_surge") = false
    exact decide_eq_false (fun he => hm (str_append_right_cancel he))

/-- C5: on a fresh engine, if the first call's derivatives snapshot carries a
positive `open_interest_usd` for an analyzed symbol and the second call's
value is at least 30% larger, then the first call's result has no OI-surge
signal for that symbol and the second call's result contains exactly the
critical OI-surge signal for it. -/
theorem oi_surge_two_calls (spot1 : List (String × SpotData))
    (deriv1 : List (String × DerivData)) (spot2 : List (String × SpotData))
    (deriv2 : List (String × DerivData)) (t1 t2 : String)
    (res1 res2 : AnalyzeResult) (h1 h2 : HistMap) (sym0 : String)
    (dd1 dd2 : DerivData) (oi1 oi2 : ℚ)
    (hmem1 : sym0 ∈ analyzedSymbols spot1 deriv1)
    (hdp1 : alookup deriv1 sym0 = some dd1)
    (hoi1 : dd1.open_interest_usd = some oi1) (hpos : 0 < oi1)
    (hmem2 : sym0 ∈ analyzedSymbols spot2 deriv2)
    (hdp2 : alookup deriv2 sym0 = some dd2)
    (hoi2 : dd2.open_interest_usd = some oi2)
    (hsurge : oi1 * (13 / 10) ≤ oi2)
    (ha1 : analyze spot1 deriv1 emptyHist t1 = .ok (res1, h1))
    (ha2 : analyze spot2 deriv2 h1 t2 = .ok (res2, h2)) :
    res1.signals.filter (fun s => s.id = sym0 ++ "_oi_surge") = []
    ∧ res2.signals.filter (fun s => s.id = sym0 ++ "_oi_surge")
        = [oiSurgeSig sym0 "critical"] := by
  obtain ⟨hres1, hh1⟩ := analyze_ok_inv ha1
  obtain ⟨hres2, -⟩ := analyze_ok_inv ha2
  subst hres1
  subst hres2
  have hm1 := List.mem_filter.mp hmem1
  have hsp1s : (alookup spot1 sym0).isSome :=
    alookup_isSome_of_mem (List.mem_dedup.mp hm1.1)
  obtain ⟨sd1, hsp1⟩ := Option.isSome_iff_exists.mp hsp1s
  have hm2 := List.mem_filter.mp hmem2
  have hsp2s : (alookup spot2 sym0).isSome :=
    alookup_isSome_of_mem (List.mem_dedup.mp hm2.1)
  have hblock1 : ∀ symbol sd dd hist, alookup spot1 symbol = some sd →
      alookup deriv1 symbol = some dd →
      ((symbolStepRun spot1 symbol sd dd hist).1).filter
          (fun s => s.id = sym0 ++ "_oi_surge")
        = if symbol = sym0 then ((oiSurgeRun sym0 dd1 hist).1).toList else [] := by
    intro symbol sd dd hist hsp hdp
    rw [symbolStepRun_filter_oi spot1 symbol sym0 sd dd hist]
    by_cases hmx : symbol = sym0
    · subst hmx
      rw [hdp1] at hdp
      have hdd := Option.some_injective _ hdp
      subst hdd
      rfl
    · rw [if_neg hmx, if_neg hmx]
  have hblock2 : ∀ symbol sd dd hist, alookup spot2 symbol = some sd →
      alookup deriv2 symbol = some dd →
      ((symbolStepRun spot2 symbol sd dd hist).1).filter
          (fun s => s.id = sym0 ++ "_oi_surge")
        = if symbol = sym0 then ((oiSurgeRun sym0 dd2 hist).1).toList else [] := by
    intro symbol sd dd hist hsp hdp
    rw [symbolStepRun_filter_oi spot2 symbol sym0 sd dd hist]
    by_cases hmx : symbol = sym0
    · subst hmx
      rw [hdp2] at hdp
      have hdd := Option.some_injective _ hdp
      subst hdd
      rfl
    · rw [if_neg hmx, if_neg hmx]
  constructor
  · have hsig1 : (analyzeRun spot1 deriv1 emptyHist t1).1.signals
        = (analyzeLoopRun spot1 deriv1 (analyzedSymbols spot1 deriv1)
            [] [] emptyHist).1 := rfl
    rw [hsig1,
      analyzeLoopRun_filter spot1 deriv1 _ sym0
        (fun hl => ((oiSurgeRun sym0 dd1 hl).1).toList) hblock1
        (analyzedSymbols spot1 deriv1) (analyzedSymbols_nodup spot1 deriv1)
        [] [] emptyHist,
      if_pos ⟨hmem1, hsp1s, by rw [hdp1]; rfl⟩]
    simp [emptyHist_apply, oiSurgeRun_nil]
  · have hh1s : h1 sym0 = (symbolStepRun spot1 sym0 sd1 dd1 []).2.2 := by
      rw [hh1]
      show (analyzeLoopRun spot1 deriv1 (analyzedSymbols spot1 deriv1)
          [] [] emptyHist).2.2 sym0 = _
      rw [analyzeLoopRun_hist spot1 deriv1 sym0 sd1 dd1 hsp1 hdp1
          (analyzedSymbols spot1 deriv1) (analyzedSymbols_nodup spot1 deriv1)
          [] [] emptyHist,
        if_pos hmem1, emptyHist_apply]
    obtain ⟨b, c, hstep⟩ := symbolStepRun_hist_nil spot1 sym0 sd1 dd1
    rw [hstep, hoi1, Option.getD_some] at hh1s
    have hsig2 : (analyzeRun spot2 deriv2 h1 t2).1.signals
        = (analyzeLoopRun spot2 deriv2 (analyzedSymbols spot2 deriv2) [] [] h1).1 := rfl
    rw [hsig2,
      analyzeLoopRun_filter spot2 deriv2 _ sym0
        (fun hl => ((oiSurgeRun sym0 dd2 hl).1).toList) hblock2
        (analyzedSymbols spot2 deriv2) (analyzedSymbols_nodup spot2 deriv2) [] [] h1,
      if_pos ⟨hmem2, hsp2s, by rw [hdp2]; rfl⟩]
    rw [List.filter_nil, List.nil_append]
    show ((oiSurgeRun sym0 dd2 (h1 sym0)).1).toList = _
    rw [hh1s, oiSurgeRun_surge sym0 dd2 oi1 oi2 b c hoi2 hpos hsurge]
    rfl

set_option maxHeartbeats 2000000 in
/-- First call of the repeated-call scenario from a cold engine: no signals,
baseline 100 stored. -/
theorem cEval1 : analyze cSpot (cDeriv 100) emptyHist "t1"
    = .ok ({ signals := []
             regime := { label := "neutral"
                         rationale := ["No significant signals detected"] }
             timestamp := "t1" }, cH) := by
  rw [analyze_eq]
  norm_num [analyzeRun, analyzeLoopRun, analyzedSymbols, symbolStepRun, alookup,
    oiSurgeRun, oiSurgeStore, volatilitySpikeRun, volumeSurgeRun, volumeSurgeSignalRun,
    volumeRatioOf, longShortRatioRun, priceOiSurgeRun, priceDropVolumeRun, oiChangeOf,
    liquidationRiskRun, momentumDivergenceRun, btcDominanceRun, checkFundingOverheated,
    checkExtremeFunding, addSig, determineRegime, updLast, cSpot, cDeriv, cH,
    funding_rate_overheated, funding_rate_extreme, oi_increase_critical, oi_increase_warning,
    volatility_extreme, volatility_high, volume_surge_zscore, price_oi_surge_price,
    price_oi_surge_oi, price_drop_volume_price, price_drop_volume_volume,
    long_short_ratio_extreme, long_short_ratio_warning, liquidation_risk_ratio,
    fundingOverheatedSig, oiSurgeSig, volatilitySpikeSig, volumeSurgeSig, longShortSig,
    priceOiSurgeSig, panicSellingSig, extremeFundingSig, liquidationRiskSig,
    momentumDivergenceSig, btcDominanceSig, emptyHist_apply, abs_of_pos, abs_of_neg,
    abs_of_nonneg, abs_of_nonpos, setH_same, setH_setH]
  try decide

set_option maxHeartbeats 2000000 in
/-- Second call with open interest 130 against the stored baseline 100: a
critical OI-surge fires. -/
theorem cEval2 : analyze cSpot (cDeriv 130) cH "t2"
    = .ok ({ signals := [oiSurgeSig "BTC" "critical"]
             regime := { label := "risk_off"
                         rationale := ["BTC: Open interest surge"] }
             timestamp := "t2" }, cH) := by
  rw [analyze_eq]
  norm_num [analyzeRun, analyzeLoopRun, analyzedSymbols, symbolStepRun, alookup,
    oiSurgeRun, oiSurgeStore, volatilitySpikeRun, volumeSurgeRun, volumeSurgeSignalRun,
    volumeRatioOf, longShortRatioRun, priceOiSurgeRun, priceDropVolumeRun, oiChangeOf,
    liquidationRiskRun, momentumDivergenceRun, btcDominanceRun, checkFundingOverheated,
    checkExtremeFunding, addSig, determineRegime, updLast, cSpot, cDeriv, cH,
    funding_rate_overheated, funding_rate_extreme, oi_increase_critical, oi_increase_warning,
    volatility_extreme, volatility_high, volume_surge_zscore, price_oi_surge_price,
    price_oi_surge_oi, price_drop_volume_price, price_drop_volume_volume,
    long_short_ratio_extreme, long_short_ratio_warning, liquidation_risk_ratio,
    fundingOverheatedSig, oiSurgeSig, volatilitySpikeSig, volumeSurgeSig, longShortSig,
    priceOiSurgeSig, panicSellingSig, extremeFundingSig, liquidationRiskSig,
    momentumDivergenceSig, btcDominanceSig, emptyHist_apply, abs_of_pos, abs_of_neg,
    abs_of_nonneg, abs_of_nonpos, setH_same, setH_setH]
  try decide

/-- Witness for C5 on the repeated-call scenario: open interest 100 then 130
(a 30% increase), no OI-surge signal in call 1, exactly the critical one in
call 2. -/
theorem oi_surge_two_calls_witness :
    ((100 : ℚ) * (13 / 10) ≤ 130)
    ∧ ({ signals := []
         regime := { label := "neutral"
                     rationale := ["No significant signals detected"] }
         timestamp := "t1" } : AnalyzeResult).signals.filter
          (fun s => s.id = "BTC" ++ "_oi_surge") = []
    ∧ ({ signals := [oiSurgeSig "BTC" "critical"]
         regime := { label := "risk_off"
                     rationale := ["BTC: Open interest surge"] }
         timestamp := "t2" } : AnalyzeResult).signals.filter
          (fun s => s.id = "BTC" ++ "_oi_surge") = [oiSurgeSig "BTC" "critical"] := by
  have h := oi_surge_two_calls cSpot (cDeriv 100) cSpot (cDeriv 130) "t1" "t2"
    { signals := []
      regime := { label := "neutral"
                  rationale := ["No significant signals detected"] }
      timestamp := "t1" }
    { signals := [oiSurgeSig "BTC" "critical"]
      regime := { label := "risk_off"
                  rationale := ["BTC: Open interest surge"] }
      timestamp := "t2" }
    cH cH "BTC" { open_interest_usd := some 100 } { open_interest_usd := some 130 }
    100 130 (by decide) rfl rfl (by norm_num) (by decide) rfl rfl (by norm_num)
    cEval1 cEval2
  exact ⟨by norm_num, h.1, h.2⟩
